import Mathlib

/-!
Verification of the Google Drive synchronization engine of the npdmustafa
repository (googleDriveSync.ts, NotesContext.tsx) against its
natural-language specification.

The TypeScript sources are shallowly embedded as Lean functions:
asynchronous effectful code becomes explicit state passing over a World
record that holds the local stores, the remote Drive state, the access
token, the re-entrancy flag and a trace of remote requests.  Timestamps
(ISO date strings compared through Date.getTime in the source) are
modelled as natural numbers; the wall clock is a counter in the World
that is incremented at every reading, matching the strictly increasing
real-time clock.  The JavaScript fan-out of the seven domain syncs
(Promise.allSettled) is sequentialized, which is faithful for the
properties proved here because each unit touches a disjoint remote blob
and its success value depends only on its own fault conditions.

Local collaborators that are referenced but whose sources are not part of
the repository snapshot (settingsStorage, noteStorage, taskStorage,
folderStorage, activityLogger, contentPreview, types/note) are modelled
from the specification, as documented on each definition.
-/

namespace NpdSync

/-- Sync metadata carried by every envelope, from interface SyncMetadata in
googleDriveSync.ts.  The lastSyncTime ISO string is modelled as a Nat. -/
structure SyncMetadata where
  lastSyncTime : Nat
  deviceId : String
  version : Nat
deriving DecidableEq, Repr

/-- Envelope wrapping one domain payload with metadata, from interface
SyncableData of googleDriveSync.ts. -/
structure SyncableData (α : Type) where
  data : α
  metadata : SyncMetadata
deriving DecidableEq, Repr

/-- Result of resolveConflict: the winner tag is the string the source
returns, and data the winning payload. -/
structure ConflictOutcome (α : Type) where
  winner : String
  data : α
deriving DecidableEq, Repr

/-- Conflict resolution from googleDriveSync.ts: the local side wins only
when its lastSyncTime is strictly greater, otherwise the remote side wins
(including on equal timestamps). -/
def resolveConflict {α : Type} (localData remoteData : SyncableData α) :
    ConflictOutcome α :=
  if localData.metadata.lastSyncTime > remoteData.metadata.lastSyncTime then
    { winner := "local", data := localData.data }
  else
    { winner := "remote", data := remoteData.data }

/-- C1: the conflict resolver selects the local side iff its lastSyncTime is
strictly greater than the remote one, and the remote side otherwise
(including on ties); any envelope with the strictly greater timestamp is
selected in either argument position. -/
theorem resolveConflict_last_write_wins {α : Type}
    (l r A B : SyncableData α)
    (hAB : A.metadata.lastSyncTime > B.metadata.lastSyncTime) :
    ((resolveConflict l r).winner = "local" ↔
      l.metadata.lastSyncTime > r.metadata.lastSyncTime) ∧
    ((resolveConflict l r).winner = "remote" ↔
      ¬ l.metadata.lastSyncTime > r.metadata.lastSyncTime) ∧
    ((resolveConflict A B).data = A.data ∧
      (resolveConflict A B).winner = "local") ∧
    ((resolveConflict B A).data = A.data ∧
      (resolveConflict B A).winner = "remote") := by
  unfold resolveConflict
  refine ⟨?_, ?_, ?_, ?_⟩
  · split <;> simp_all
  · split <;> simp_all
  · simp [hAB]
  · have : ¬ B.metadata.lastSyncTime > A.metadata.lastSyncTime :=
      Nat.not_lt.mpr (Nat.le_of_lt hAB)
    simp [this]

/-- Witness for C1 at concrete envelopes: timestamps 7 versus 3, and a tied
pair 5 versus 5. -/
theorem resolveConflict_last_write_wins_witness :
    (SyncableData.mk (α := Nat) 10 ⟨7, "a", 1⟩).metadata.lastSyncTime >
      (SyncableData.mk (α := Nat) 20 ⟨3, "b", 1⟩).metadata.lastSyncTime ∧
    (((resolveConflict (SyncableData.mk (α := Nat) 1 ⟨5, "a", 1⟩)
        (SyncableData.mk (α := Nat) 2 ⟨5, "b", 1⟩)).winner = "local" ↔
      (5 : Nat) > 5) ∧
    ((resolveConflict (SyncableData.mk (α := Nat) 1 ⟨5, "a", 1⟩)
        (SyncableData.mk (α := Nat) 2 ⟨5, "b", 1⟩)).winner = "remote" ↔
      ¬ (5 : Nat) > 5) ∧
    ((resolveConflict (SyncableData.mk (α := Nat) 10 ⟨7, "a", 1⟩)
        (SyncableData.mk (α := Nat) 20 ⟨3, "b", 1⟩)).data = 10 ∧
      (resolveConflict (SyncableData.mk (α := Nat) 10 ⟨7, "a", 1⟩)
        (SyncableData.mk (α := Nat) 20 ⟨3, "b", 1⟩)).winner = "local") ∧
    ((resolveConflict (SyncableData.mk (α := Nat) 20 ⟨3, "b", 1⟩)
        (SyncableData.mk (α := Nat) 10 ⟨7, "a", 1⟩)).data = 10 ∧
      (resolveConflict (SyncableData.mk (α := Nat) 20 ⟨3, "b", 1⟩)
        (SyncableData.mk (α := Nat) 10 ⟨7, "a", 1⟩)).winner = "remote")) :=
  ⟨by decide,
   resolveConflict_last_write_wins
     (SyncableData.mk 1 ⟨5, "a", 1⟩) (SyncableData.mk 2 ⟨5, "b", 1⟩)
     (SyncableData.mk 10 ⟨7, "a", 1⟩) (SyncableData.mk 20 ⟨3, "b", 1⟩)
     (by decide)⟩

/-- Note type variants of the app (regular, lined, sticky, code, sketch,
voice).  Modelled from the spec: the NoteType union of types/note is not in
the sources; its variants are listed in persistentNotification.ts. -/
inductive NoteType where
  | regular
  | lined
  | sticky
  | code
  | sketch
  | voice
deriving DecidableEq, Repr

/-- Voice recording attached to a note, with its timestamp modelled as a
Nat.  Modelled from the spec: only the fields used by googleDriveSync.ts
(timestamp) are kept, plus an identifying url field. -/
structure VoiceRecording where
  url : String
  timestamp : Nat
deriving DecidableEq, Repr

/-- Note entity.  Modelled from the spec: types/note is not in the sources;
the fields are exactly those read by extractNoteMeta in NotesContext.tsx
plus content and voiceRecordings used by googleDriveSync.ts.  Date fields
are modelled as Nat, optional fields as Option. -/
structure Note where
  id : String
  type : NoteType
  title : String
  content : String
  color : Option String
  folderId : Option String
  isPinned : Option Bool
  isFavorite : Option Bool
  pinnedOrder : Option Nat
  isArchived : Option Bool
  archivedAt : Option Nat
  isDeleted : Option Bool
  deletedAt : Option Nat
  isHidden : Option Bool
  isProtected : Option Bool
  metaDescription : Option String
  reminderEnabled : Option Bool
  reminderTime : Option Nat
  createdAt : Nat
  updatedAt : Nat
  voiceRecordings : List VoiceRecording
deriving DecidableEq, Repr

/-- Activity log entry: only the id is inspected by the merge in
syncActivity; a payload field distinguishes entries sharing an id. -/
structure ActivityEntry where
  id : Nat
  payload : Nat
deriving DecidableEq, Repr

/-- Media index payload of the media domain, from getLocalMediaIndex in
googleDriveSync.ts. -/
structure MediaIndex where
  images : List String
  audio : List String
deriving DecidableEq, Repr

/-- Values storable in the local key-value settings store.  Modelled from
the spec: settingsStorage is not in the sources; the store persists ISO
timestamp strings (here natV), plain strings, the todo_sections list, the
userActivityLog list and the media index. -/
inductive SettingVal where
  | natV (n : Nat)
  | str (s : String)
  | itemsV (xs : List Nat)
  | activitiesV (xs : List ActivityEntry)
  | mediaV (m : MediaIndex)
deriving DecidableEq, Repr

/-- Content of a remote blob: either a well-formed envelope or malformed
bytes on which response.json() fails, making readFile return null. -/
inductive RContent (α : Type) where
  | good (env : SyncableData α)
  | malformed
deriving DecidableEq, Repr

/-- One file stored in the Drive appDataFolder slot of a fixed name; the id
is the Drive file id used for read and update requests. -/
structure DFile (α : Type) where
  id : Nat
  content : RContent α
deriving DecidableEq, Repr

/-- Remote Drive state: one list of files per fixed blob name of SYNC_FILES
(duplicates of a name are possible, findFile returns the first), and a
fresh-id counter for created files. -/
structure Drive where
  nextId : Nat
  notesFiles : List (DFile (List Note))
  tasksFiles : List (DFile (List Nat))
  foldersFiles : List (DFile (List Nat))
  sectionsFiles : List (DFile (List Nat))
  settingsFiles : List (DFile (List (String × SettingVal)))
  activityFiles : List (DFile (List ActivityEntry))
  mediaFiles : List (DFile MediaIndex)
deriving DecidableEq, Repr

/-- Remote request trace events, used to reason about which remote I/O a
call performs. -/
inductive Ev where
  | findReq (name : String)
  | readReq (name : String)
  | writeReq (name : String) (isCreate : Bool)
  | probeToken
deriving DecidableEq, Repr

/-- Whole program state threaded through the embedded effectful code:
local entity stores, the settings key-value store, the remote Drive, the
manager fields accessToken and syncInProgress of GoogleDriveSyncManager,
a strictly increasing clock, and the trace of remote requests. -/
structure World where
  clock : Nat
  settings : List (String × SettingVal)
  localNotes : List Note
  localTasks : List Nat
  localFolders : List Nat
  drive : Drive
  token : Option String
  syncInProgress : Bool
  trace : List Ev
deriving DecidableEq, Repr

/-- Fault environment: which remote or local operations fail during a run.
tokenOk is the outcome of the credential probe, refreshed the outcome of
the refresh callback, loadFails an exception thrown by a domain's local
load (the per-domain failure source of the source code, whose try block
catches it and returns false), and find, read and write faults are network
failures of the corresponding Drive requests, keyed by blob name. -/
structure FaultEnv where
  tokenOk : Bool
  refreshed : Option String
  loadFails : String → Bool
  findFails : String → Bool
  readFails : String → Bool
  writeFails : String → Bool

/-- Environment in which every operation succeeds. -/
def allOk : FaultEnv :=
  { tokenOk := true, refreshed := none,
    loadFails := fun _ => false, findFails := fun _ => false,
    readFails := fun _ => false, writeFails := fun _ => false }

/-- Append a remote request event to the trace. -/
def pushEv (w : World) (e : Ev) : World :=
  { w with trace := w.trace ++ [e] }

/-- Read the strictly increasing wall clock, modelling new Date(). -/
def tick (w : World) : Nat × World :=
  (w.clock, { w with clock := w.clock + 1 })

/-- Lookup in the key-value settings store.  Modelled from the spec:
settingsStorage getSetting is not in the sources. -/
def lookupSetting (s : List (String × SettingVal)) (key : String) :
    Option SettingVal :=
  (s.find? (fun kv => kv.1 = key)).map (fun kv => kv.2)

/-- Update-or-insert in the key-value settings store.  Modelled from the
spec: settingsStorage setSetting is not in the sources. -/
def setSettingKV (s : List (String × SettingVal)) (key : String)
    (v : SettingVal) : List (String × SettingVal) :=
  if s.any (fun kv => kv.1 = key) then
    s.map (fun kv => if kv.1 = key then (key, v) else kv)
  else
    s ++ [(key, v)]

/-- setSetting acting on the World. -/
def setSetting (w : World) (key : String) (v : SettingVal) : World :=
  { w with settings := setSettingKV w.settings key v }

/-- getSetting specialised to timestamp values with a default, modelling
getSetting of an ISO time string followed by Date.getTime. -/
def getSettingNat (w : World) (key : String) (dflt : Nat) : Nat :=
  match lookupSetting w.settings key with
  | some (SettingVal.natV n) => n
  | _ => dflt

/-- Currently stored device id string, empty when absent. -/
def storedDeviceId (w : World) : String :=
  match lookupSetting w.settings "device_id" with
  | some (SettingVal.str s) => s
  | _ => ""

/-- getDeviceId of googleDriveSync.ts: return the stored device id, or
generate, persist and return a fresh one (the random suffix is dropped;
the Date.now() part is the ticked clock). -/
def getDeviceId (w : World) : String × World :=
  if storedDeviceId w = "" then
    let t := tick w
    let d := "device_" ++ toString t.1
    (d, setSetting t.2 "device_id" (SettingVal.str d))
  else
    (storedDeviceId w, w)

/-- ensureValidToken of GoogleDriveSyncManager: fail when no token is set;
probe the Drive API with the current token; on a 401 invoke the refresh
callback and substitute its token, or fail. -/
def ensureValidToken (env : FaultEnv) (w : World) : Option String × World :=
  match w.token with
  | none => (none, w)
  | some t =>
    let w1 := pushEv w Ev.probeToken
    if env.tokenOk then (some t, w1)
    else
      match env.refreshed with
      | some nt => (some nt, { w1 with token := some nt })
      | none => (none, w1)

/-- findFile result on one name slot: the first file of that name
(data.files[0] of the Drive query). -/
def slotFind {α : Type} (files : List (DFile α)) : Option (DFile α) :=
  files.head?

/-- readFile result on one name slot: locate the file by id and return its
envelope, or none when the content is malformed or the file is gone. -/
def slotReadAt {α : Type} (files : List (DFile α)) (fid : Nat) :
    Option (SyncableData α) :=
  match files.find? (fun f => f.id = fid) with
  | some f =>
    match f.content with
    | RContent.good e => some e
    | RContent.malformed => none
  | none => none

/-- writeFile update path (PATCH with existingFileId): replace the content
of the file with the given id, keeping its id. -/
def slotUpdate {α : Type} (files : List (DFile α)) (fid : Nat)
    (env : SyncableData α) : List (DFile α) :=
  files.map (fun f => if f.id = fid then { f with content := RContent.good env } else f)

/-- getLocalDataWithMetadata of googleDriveSync.ts: wrap a loaded local
payload with the stored last-sync time (epoch zero default), the device id
and version 1. -/
def getLocalDataWithMetadata {α : Type} (w : World) (key : String)
    (data : α) : SyncableData α × World :=
  let lastSyncTime := getSettingNat w ("sync_" ++ key ++ "_time") 0
  let p := getDeviceId w
  (⟨data, ⟨lastSyncTime, p.1, 1⟩⟩, p.2)

/-- Blob names of SYNC_FILES in googleDriveSync.ts. -/
def notesFileName : String := "nota_notes.json"

def tasksFileName : String := "nota_tasks.json"

def foldersFileName : String := "nota_folders.json"

def sectionsFileName : String := "nota_sections.json"

def settingsFileName : String := "nota_settings.json"

def activityFileName : String := "nota_activity.json"

def mediaFileName : String := "nota_media_index.json"

/-- Restoration of a note read from the remote envelope: the source maps
the ISO strings createdAt, updatedAt and the voice recording timestamps
back through the Date constructor; under the Nat model of timestamps this
conversion is the identity on each field, applied structurally. -/
def restoreNote (n : Note) : Note :=
  { n with
    createdAt := n.createdAt,
    updatedAt := n.updatedAt,
    voiceRecordings := n.voiceRecordings.map (fun r => { r with timestamp := r.timestamp }) }

/-- Shared tail of every domain unit: persist now() under the domain's
sync time key and return true. -/
def finishUnit (w : World) (key : String) : Bool × World :=
  let t := tick w
  (true, setSetting t.2 key (SettingVal.natV t.1))

/-- findFile on the notes blob name, with its request trace event and
network fault. -/
def findNotesFile (env : FaultEnv) (w : World) :
    Option (DFile (List Note)) × World :=
  let w1 := pushEv w (Ev.findReq notesFileName)
  (if env.findFails notesFileName then none else slotFind w1.drive.notesFiles, w1)

/-- readFile on the notes blob. -/
def readNotesFile (env : FaultEnv) (w : World) (fid : Nat) :
    Option (SyncableData (List Note)) × World :=
  let w1 := pushEv w (Ev.readReq notesFileName)
  (if env.readFails notesFileName then none
   else slotReadAt w1.drive.notesFiles fid, w1)

/-- writeFile on the notes blob: PATCH in place when an existing file id is
given, otherwise POST a new file with a fresh id.  The returned Drive file
id is ignored by every caller in the source, so only the World is
returned. -/
def writeNotesFile (env : FaultEnv) (w : World)
    (content : SyncableData (List Note)) (existing : Option Nat) : World :=
  let w1 := pushEv w (Ev.writeReq notesFileName existing.isNone)
  if env.writeFails notesFileName then w1
  else
    match existing with
    | some fid =>
      { w1 with drive :=
        { w1.drive with notesFiles := slotUpdate w1.drive.notesFiles fid content } }
    | none =>
      { w1 with drive :=
        { w1.drive with
          notesFiles := w1.drive.notesFiles ++ [⟨w1.drive.nextId, RContent.good content⟩],
          nextId := w1.drive.nextId + 1 } }

/-- findFile on the tasks blob. -/
def findTasksFile (env : FaultEnv) (w : World) :
    Option (DFile (List Nat)) × World :=
  let w1 := pushEv w (Ev.findReq tasksFileName)
  (if env.findFails tasksFileName then none else slotFind w1.drive.tasksFiles, w1)

/-- readFile on the tasks blob. -/
def readTasksFile (env : FaultEnv) (w : World) (fid : Nat) :
    Option (SyncableData (List Nat)) × World :=
  let w1 := pushEv w (Ev.readReq tasksFileName)
  (if env.readFails tasksFileName then none
   else slotReadAt w1.drive.tasksFiles fid, w1)

/-- writeFile on the tasks blob. -/
def writeTasksFile (env : FaultEnv) (w : World)
    (content : SyncableData (List Nat)) (existing : Option Nat) : World :=
  let w1 := pushEv w (Ev.writeReq tasksFileName existing.isNone)
  if env.writeFails tasksFileName then w1
  else
    match existing with
    | some fid =>
      { w1 with drive :=
        { w1.drive with tasksFiles := slotUpdate w1.drive.tasksFiles fid content } }
    | none =>
      { w1 with drive :=
        { w1.drive with
          tasksFiles := w1.drive.tasksFiles ++ [⟨w1.drive.nextId, RContent.good content⟩],
          nextId := w1.drive.nextId + 1 } }

/-- findFile on the folders blob. -/
def findFoldersFile (env : FaultEnv) (w : World) :
    Option (DFile (List Nat)) × World :=
  let w1 := pushEv w (Ev.findReq foldersFileName)
  (if env.findFails foldersFileName then none else slotFind w1.drive.foldersFiles, w1)

/-- readFile on the folders blob. -/
def readFoldersFile (env : FaultEnv) (w : World) (fid : Nat) :
    Option (SyncableData (List Nat)) × World :=
  let w1 := pushEv w (Ev.readReq foldersFileName)
  (if env.readFails foldersFileName then none
   else slotReadAt w1.drive.foldersFiles fid, w1)

/-- writeFile on the folders blob. -/
def writeFoldersFile (env : FaultEnv) (w : World)
    (content : SyncableData (List Nat)) (existing : Option Nat) : World :=
  let w1 := pushEv w (Ev.writeReq foldersFileName existing.isNone)
  if env.writeFails foldersFileName then w1
  else
    match existing with
    | some fid =>
      { w1 with drive :=
        { w1.drive with foldersFiles := slotUpdate w1.drive.foldersFiles fid content } }
    | none =>
      { w1 with drive :=
        { w1.drive with
          foldersFiles := w1.drive.foldersFiles ++ [⟨w1.drive.nextId, RContent.good content⟩],
          nextId := w1.drive.nextId + 1 } }

/-- findFile on the sections blob. -/
def findSectionsFile (env : FaultEnv) (w : World) :
    Option (DFile (List Nat)) × World :=
  let w1 := pushEv w (Ev.findReq sectionsFileName)
  (if env.findFails sectionsFileName then none else slotFind w1.drive.sectionsFiles, w1)

/-- readFile on the sections blob. -/
def readSectionsFile (env : FaultEnv) (w : World) (fid : Nat) :
    Option (SyncableData (List Nat)) × World :=
  let w1 := pushEv w (Ev.readReq sectionsFileName)
  (if env.readFails sectionsFileName then none
   else slotReadAt w1.drive.sectionsFiles fid, w1)

/-- writeFile on the sections blob. -/
def writeSectionsFile (env : FaultEnv) (w : World)
    (content : SyncableData (List Nat)) (existing : Option Nat) : World :=
  let w1 := pushEv w (Ev.writeReq sectionsFileName existing.isNone)
  if env.writeFails sectionsFileName then w1
  else
    match existing with
    | some fid =>
      { w1 with drive :=
        { w1.drive with sectionsFiles := slotUpdate w1.drive.sectionsFiles fid content } }
    | none =>
      { w1 with drive :=
        { w1.drive with
          sectionsFiles := w1.drive.sectionsFiles ++ [⟨w1.drive.nextId, RContent.good content⟩],
          nextId := w1.drive.nextId + 1 } }

/-- findFile on the settings blob. -/
def findSettingsFile (env : FaultEnv) (w : World) :
    Option (DFile (List (String × SettingVal))) × World :=
  let w1 := pushEv w (Ev.findReq settingsFileName)
  (if env.findFails settingsFileName then none else slotFind w1.drive.settingsFiles, w1)

/-- readFile on the settings blob. -/
def readSettingsFile (env : FaultEnv) (w : World) (fid : Nat) :
    Option (SyncableData (List (String × SettingVal))) × World :=
  let w1 := pushEv w (Ev.readReq settingsFileName)
  (if env.readFails settingsFileName then none
   else slotReadAt w1.drive.settingsFiles fid, w1)

/-- writeFile on the settings blob. -/
def writeSettingsFile (env : FaultEnv) (w : World)
    (content : SyncableData (List (String × SettingVal)))
    (existing : Option Nat) : World :=
  let w1 := pushEv w (Ev.writeReq settingsFileName existing.isNone)
  if env.writeFails settingsFileName then w1
  else
    match existing with
    | some fid =>
      { w1 with drive :=
        { w1.drive with settingsFiles := slotUpdate w1.drive.settingsFiles fid content } }
    | none =>
      { w1 with drive :=
        { w1.drive with
          settingsFiles := w1.drive.settingsFiles ++ [⟨w1.drive.nextId, RContent.good content⟩],
          nextId := w1.drive.nextId + 1 } }

/-- findFile on the activity blob. -/
def findActivityFile (env : FaultEnv) (w : World) :
    Option (DFile (List ActivityEntry)) × World :=
  let w1 := pushEv w (Ev.findReq activityFileName)
  (if env.findFails activityFileName then none else slotFind w1.drive.activityFiles, w1)

/-- readFile on the activity blob. -/
def readActivityFile (env : FaultEnv) (w : World) (fid : Nat) :
    Option (SyncableData (List ActivityEntry)) × World :=
  let w1 := pushEv w (Ev.readReq activityFileName)
  (if env.readFails activityFileName then none
   else slotReadAt w1.drive.activityFiles fid, w1)

/-- writeFile on the activity blob. -/
def writeActivityFile (env : FaultEnv) (w : World)
    (content : SyncableData (List ActivityEntry)) (existing : Option Nat) :
    World :=
  let w1 := pushEv w (Ev.writeReq activityFileName existing.isNone)
  if env.writeFails activityFileName then w1
  else
    match existing with
    | some fid =>
      { w1 with drive :=
        { w1.drive with activityFiles := slotUpdate w1.drive.activityFiles fid content } }
    | none =>
      { w1 with drive :=
        { w1.drive with
          activityFiles := w1.drive.activityFiles ++ [⟨w1.drive.nextId, RContent.good content⟩],
          nextId := w1.drive.nextId + 1 } }

/-- findFile on the media index blob. -/
def findMediaFile (env : FaultEnv) (w : World) :
    Option (DFile MediaIndex) × World :=
  let w1 := pushEv w (Ev.findReq mediaFileName)
  (if env.findFails mediaFileName then none else slotFind w1.drive.mediaFiles, w1)

/-- readFile on the media index blob. -/
def readMediaFile (env : FaultEnv) (w : World) (fid : Nat) :
    Option (SyncableData MediaIndex) × World :=
  let w1 := pushEv w (Ev.readReq mediaFileName)
  (if env.readFails mediaFileName then none
   else slotReadAt w1.drive.mediaFiles fid, w1)

/-- writeFile on the media index blob. -/
def writeMediaFile (env : FaultEnv) (w : World)
    (content : SyncableData MediaIndex) (existing : Option Nat) : World :=
  let w1 := pushEv w (Ev.writeReq mediaFileName existing.isNone)
  if env.writeFails mediaFileName then w1
  else
    match existing with
    | some fid =>
      { w1 with drive :=
        { w1.drive with mediaFiles := slotUpdate w1.drive.mediaFiles fid content } }
    | none =>
      { w1 with drive :=
        { w1.drive with
          mediaFiles := w1.drive.mediaFiles ++ [⟨w1.drive.nextId, RContent.good content⟩],
          nextId := w1.drive.nextId + 1 } }

/-- syncNotes of GoogleDriveSyncManager: validate the token, load local
notes with metadata, locate the remote blob; on first sync create it with
the local payload; otherwise read the remote envelope and resolve the
conflict, restoring remote notes locally on a remote win or patching the
blob with the local payload on a local win; a failed remote read skips the
body; finally persist a fresh sync_notes_time and return true.  Failures
modelled: a missing or invalid credential, and an exception of the local
load (caught by the source and turned into false). -/
def syncNotes (env : FaultEnv) (w : World) : Bool × World :=
  let tk := ensureValidToken env w
  match tk.1 with
  | none => (false, tk.2)
  | some _ =>
    let w1 := tk.2
    if env.loadFails "notes" then (false, w1) else
    let localNotes := w1.localNotes
    let q := getLocalDataWithMetadata w1 "notes" localNotes
    let localData := q.1
    let w2 := q.2
    let fr := findNotesFile env w2
    let w3 := fr.2
    match fr.1 with
    | some remoteFile =>
      let rd := readNotesFile env w3 remoteFile.id
      let w4 := rd.2
      match rd.1 with
      | some remoteData =>
        let r := resolveConflict localData remoteData
        if r.winner = "remote" then
          let restoredNotes := r.data.map restoreNote
          let w5 := { w4 with localNotes := restoredNotes }
          finishUnit w5 "sync_notes_time"
        else
          let t := tick w4
          let d := getDeviceId t.2
          let syncData : SyncableData (List Note) := ⟨localNotes, ⟨t.1, d.1, 1⟩⟩
          let w5 := writeNotesFile env d.2 syncData (some remoteFile.id)
          finishUnit w5 "sync_notes_time"
      | none => finishUnit w4 "sync_notes_time"
    | none =>
      let t := tick w3
      let d := getDeviceId t.2
      let syncData : SyncableData (List Note) := ⟨localNotes, ⟨t.1, d.1, 1⟩⟩
      let w4 := writeNotesFile env d.2 syncData none
      finishUnit w4 "sync_notes_time"

/-- syncTasks of GoogleDriveSyncManager; task entries are opaque to the
sync code and modelled as Nat. -/
def syncTasks (env : FaultEnv) (w : World) : Bool × World :=
  let tk := ensureValidToken env w
  match tk.1 with
  | none => (false, tk.2)
  | some _ =>
    let w1 := tk.2
    if env.loadFails "tasks" then (false, w1) else
    let localTasks := w1.localTasks
    let q := getLocalDataWithMetadata w1 "tasks" localTasks
    let localData := q.1
    let w2 := q.2
    let fr := findTasksFile env w2
    let w3 := fr.2
    match fr.1 with
    | some remoteFile =>
      let rd := readTasksFile env w3 remoteFile.id
      let w4 := rd.2
      match rd.1 with
      | some remoteData =>
        let r := resolveConflict localData remoteData
        if r.winner = "remote" then
          let w5 := { w4 with localTasks := r.data }
          finishUnit w5 "sync_tasks_time"
        else
          let t := tick w4
          let d := getDeviceId t.2
          let syncData : SyncableData (List Nat) := ⟨localTasks, ⟨t.1, d.1, 1⟩⟩
          let w5 := writeTasksFile env d.2 syncData (some remoteFile.id)
          finishUnit w5 "sync_tasks_time"
      | none => finishUnit w4 "sync_tasks_time"
    | none =>
      let t := tick w3
      let d := getDeviceId t.2
      let syncData : SyncableData (List Nat) := ⟨localTasks, ⟨t.1, d.1, 1⟩⟩
      let w4 := writeTasksFile env d.2 syncData none
      finishUnit w4 "sync_tasks_time"

/-- syncFolders of GoogleDriveSyncManager; folder entries are opaque to
the sync code and modelled as Nat. -/
def syncFolders (env : FaultEnv) (w : World) : Bool × World :=
  let tk := ensureValidToken env w
  match tk.1 with
  | none => (false, tk.2)
  | some _ =>
    let w1 := tk.2
    if env.loadFails "folders" then (false, w1) else
    let localFolders := w1.localFolders
    let q := getLocalDataWithMetadata w1 "folders" localFolders
    let localData := q.1
    let w2 := q.2
    let fr := findFoldersFile env w2
    let w3 := fr.2
    match fr.1 with
    | some remoteFile =>
      let rd := readFoldersFile env w3 remoteFile.id
      let w4 := rd.2
      match rd.1 with
      | some remoteData =>
        let r := resolveConflict localData remoteData
        if r.winner = "remote" then
          let w5 := { w4 with localFolders := r.data }
          finishUnit w5 "sync_folders_time"
        else
          let t := tick w4
          let d := getDeviceId t.2
          let syncData : SyncableData (List Nat) := ⟨localFolders, ⟨t.1, d.1, 1⟩⟩
          let w5 := writeFoldersFile env d.2 syncData (some remoteFile.id)
          finishUnit w5 "sync_folders_time"
      | none => finishUnit w4 "sync_folders_time"
    | none =>
      let t := tick w3
      let d := getDeviceId t.2
      let syncData : SyncableData (List Nat) := ⟨localFolders, ⟨t.1, d.1, 1⟩⟩
      let w4 := writeFoldersFile env d.2 syncData none
      finishUnit w4 "sync_folders_time"

/-- Task sections as read by syncSections: getSetting of todo_sections
with default empty list. -/
def getTodoSections (w : World) : List Nat :=
  match lookupSetting w.settings "todo_sections" with
  | some (SettingVal.itemsV xs) => xs
  | _ => []

/-- syncSections of GoogleDriveSyncManager: like the other units, with the
local payload held in the settings store under todo_sections. -/
def syncSections (env : FaultEnv) (w : World) : Bool × World :=
  let tk := ensureValidToken env w
  match tk.1 with
  | none => (false, tk.2)
  | some _ =>
    let w1 := tk.2
    if env.loadFails "sections" then (false, w1) else
    let sections0 := getTodoSections w1
    let q := getLocalDataWithMetadata w1 "sections" sections0
    let localData := q.1
    let w2 := q.2
    let fr := findSectionsFile env w2
    let w3 := fr.2
    match fr.1 with
    | some remoteFile =>
      let rd := readSectionsFile env w3 remoteFile.id
      let w4 := rd.2
      match rd.1 with
      | some remoteData =>
        let r := resolveConflict localData remoteData
        if r.winner = "remote" then
          let w5 := setSetting w4 "todo_sections" (SettingVal.itemsV r.data)
          finishUnit w5 "sync_sections_time"
        else
          let t := tick w4
          let d := getDeviceId t.2
          let syncData : SyncableData (List Nat) := ⟨sections0, ⟨t.1, d.1, 1⟩⟩
          let w5 := writeSectionsFile env d.2 syncData (some remoteFile.id)
          finishUnit w5 "sync_sections_time"
      | none => finishUnit w4 "sync_sections_time"
    | none =>
      let t := tick w3
      let d := getDeviceId t.2
      let syncData : SyncableData (List Nat) := ⟨sections0, ⟨t.1, d.1, 1⟩⟩
      let w4 := writeSectionsFile env d.2 syncData none
      finishUnit w4 "sync_sections_time"

/-- Character-level string prefix test, modelling the JavaScript
String.startsWith used by the settings filter (defined on the character
lists so that concrete instances evaluate). -/
def strStartsWith (s p : String) : Bool := p.data.isPrefixOf s.data

/-- Filter of syncSettings: drop every setting whose key starts with
sync_, device_ or google_ before uploading. -/
def syncableSettingsOf (s : List (String × SettingVal)) :
    List (String × SettingVal) :=
  s.filter (fun kv =>
    !(strStartsWith kv.1 "sync_" || strStartsWith kv.1 "device_" || strStartsWith kv.1 "google_"))

/-- syncSettings of GoogleDriveSyncManager: upload the filtered settings
map; on a remote win restore each received key-value pair into the local
store one by one. -/
def syncSettings (env : FaultEnv) (w : World) : Bool × World :=
  let tk := ensureValidToken env w
  match tk.1 with
  | none => (false, tk.2)
  | some _ =>
    let w1 := tk.2
    if env.loadFails "settings" then (false, w1) else
    let syncableSettings := syncableSettingsOf w1.settings
    let q := getLocalDataWithMetadata w1 "settings" syncableSettings
    let localData := q.1
    let w2 := q.2
    let fr := findSettingsFile env w2
    let w3 := fr.2
    match fr.1 with
    | some remoteFile =>
      let rd := readSettingsFile env w3 remoteFile.id
      let w4 := rd.2
      match rd.1 with
      | some remoteData =>
        let r := resolveConflict localData remoteData
        if r.winner = "remote" then
          let w5 := r.data.foldl (fun acc kv => setSetting acc kv.1 kv.2) w4
          finishUnit w5 "sync_settings_time"
        else
          let t := tick w4
          let d := getDeviceId t.2
          let syncData : SyncableData (List (String × SettingVal)) :=
            ⟨syncableSettings, ⟨t.1, d.1, 1⟩⟩
          let w5 := writeSettingsFile env d.2 syncData (some remoteFile.id)
          finishUnit w5 "sync_settings_time"
      | none => finishUnit w4 "sync_settings_time"
    | none =>
      let t := tick w3
      let d := getDeviceId t.2
      let syncData : SyncableData (List (String × SettingVal)) :=
        ⟨syncableSettings, ⟨t.1, d.1, 1⟩⟩
      let w4 := writeSettingsFile env d.2 syncData none
      finishUnit w4 "sync_settings_time"

/-- Activity entries as loaded by syncActivity.  Modelled from the spec:
activityLogger getActivities is not in the sources; syncActivity persists
the merged log under the settings key userActivityLog, which is therefore
where the log is read from. -/
def getActivities (w : World) : List ActivityEntry :=
  match lookupSetting w.settings "userActivityLog" with
  | some (SettingVal.activitiesV xs) => xs
  | _ => []

/-- Deduplication by entry id keeping first occurrences, from the reduce
over the spread of remote and local entries in syncActivity. -/
def dedupById (xs : List ActivityEntry) : List ActivityEntry :=
  xs.foldl (fun acc e => if acc.any (fun x => x.id = e.id) then acc else acc ++ [e]) []

/-- Union merge of syncActivity on a remote win: remote entries first, then
local entries, deduplicated by id. -/
def mergeActivityLogs (remoteEntries localEntries : List ActivityEntry) :
    List ActivityEntry :=
  dedupById (remoteEntries ++ localEntries)

/-- syncActivity of GoogleDriveSyncManager: the one domain with additive
semantics; a remote win merges remote and local entries by id instead of
overwriting, and persists the union under userActivityLog. -/
def syncActivity (env : FaultEnv) (w : World) : Bool × World :=
  let tk := ensureValidToken env w
  match tk.1 with
  | none => (false, tk.2)
  | some _ =>
    let w1 := tk.2
    if env.loadFails "activity" then (false, w1) else
    let activityLog := getActivities w1
    let q := getLocalDataWithMetadata w1 "activity" activityLog
    let localData := q.1
    let w2 := q.2
    let fr := findActivityFile env w2
    let w3 := fr.2
    match fr.1 with
    | some remoteFile =>
      let rd := readActivityFile env w3 remoteFile.id
      let w4 := rd.2
      match rd.1 with
      | some remoteData =>
        let r := resolveConflict localData remoteData
        if r.winner = "remote" then
          let mergedLog := mergeActivityLogs r.data activityLog
          let w5 := setSetting w4 "userActivityLog" (SettingVal.activitiesV mergedLog)
          finishUnit w5 "sync_activity_time"
        else
          let t := tick w4
          let d := getDeviceId t.2
          let syncData : SyncableData (List ActivityEntry) :=
            ⟨activityLog, ⟨t.1, d.1, 1⟩⟩
          let w5 := writeActivityFile env d.2 syncData (some remoteFile.id)
          finishUnit w5 "sync_activity_time"
      | none => finishUnit w4 "sync_activity_time"
    | none =>
      let t := tick w3
      let d := getDeviceId t.2
      let syncData : SyncableData (List ActivityEntry) :=
        ⟨activityLog, ⟨t.1, d.1, 1⟩⟩
      let w4 := writeActivityFile env d.2 syncData none
      finishUnit w4 "sync_activity_time"

/-- getLocalMediaIndex of GoogleDriveSyncManager: the stored media index
or the empty default; the JSON round trip of the source is the identity
under this model. -/
def getLocalMediaIndex (w : World) : MediaIndex :=
  match lookupSetting w.settings "media_index" with
  | some (SettingVal.mediaV m) => m
  | _ => { images := [], audio := [] }

/-- syncMedia of GoogleDriveSyncManager: syncs the index of media
references only; a remote win stores the remote index locally. -/
def syncMedia (env : FaultEnv) (w : World) : Bool × World :=
  let tk := ensureValidToken env w
  match tk.1 with
  | none => (false, tk.2)
  | some _ =>
    let w1 := tk.2
    if env.loadFails "media" then (false, w1) else
    let mediaIndex := getLocalMediaIndex w1
    let q := getLocalDataWithMetadata w1 "media" mediaIndex
    let localData := q.1
    let w2 := q.2
    let fr := findMediaFile env w2
    let w3 := fr.2
    match fr.1 with
    | some remoteFile =>
      let rd := readMediaFile env w3 remoteFile.id
      let w4 := rd.2
      match rd.1 with
      | some remoteData =>
        let r := resolveConflict localData remoteData
        if r.winner = "remote" then
          let w5 := setSetting w4 "media_index" (SettingVal.mediaV r.data)
          finishUnit w5 "sync_media_time"
        else
          let t := tick w4
          let d := getDeviceId t.2
          let syncData : SyncableData MediaIndex := ⟨mediaIndex, ⟨t.1, d.1, 1⟩⟩
          let w5 := writeMediaFile env d.2 syncData (some remoteFile.id)
          finishUnit w5 "sync_media_time"
      | none => finishUnit w4 "sync_media_time"
    | none =>
      let t := tick w3
      let d := getDeviceId t.2
      let syncData : SyncableData MediaIndex := ⟨mediaIndex, ⟨t.1, d.1, 1⟩⟩
      let w4 := writeMediaFile env d.2 syncData none
      finishUnit w4 "sync_media_time"

/-- Report returned by syncAll. -/
structure SyncAllResult where
  success : Bool
  errors : List String
deriving DecidableEq, Repr

/-- Report of a syncAll rejected by the re-entrancy lock. -/
def busyResult : SyncAllResult :=
  { success := false, errors := ["Sync already in progress"] }

/-- Synchronous prefix of syncAll, up to its first await: the busy check
and, when free, the setting of the lock.  In the single threaded event
loop a second syncAll issued before the first completes runs against the
World this prefix produced. -/
def syncAllEnter (w : World) : Option SyncAllResult × World :=
  if w.syncInProgress then (some busyResult, w)
  else (none, { w with syncInProgress := true })

/-- Fan-out over the seven domain units.  Promise.allSettled is
sequentialized; each unit returns its own Bool and the World is threaded
through. -/
def runUnits (env : FaultEnv) (w : World) : List Bool × World :=
  let p1 := syncNotes env w
  let p2 := syncTasks env p1.2
  let p3 := syncFolders env p2.2
  let p4 := syncSections env p3.2
  let p5 := syncSettings env p4.2
  let p6 := syncActivity env p5.2
  let p7 := syncMedia env p6.2
  ([p1.1, p2.1, p3.1, p4.1, p5.1, p6.1, p7.1], p7.2)

/-- Domain labels in fan-out order, the types array of syncAll. -/
def syncTypes : List String :=
  ["notes", "tasks", "folders", "sections", "settings", "activity", "media"]

/-- Remainder of syncAll after the lock was taken: run the seven units,
collect an error entry per failed domain, persist last_full_sync, build
the report and clear the lock. -/
def syncAllRest (env : FaultEnv) (w : World) : SyncAllResult × World :=
  let p := runUnits env w
  let errors := (syncTypes.zip p.1).filterMap
    (fun tr => if tr.2 then none else some ("Failed to sync " ++ tr.1))
  let t := tick p.2
  let w2 := setSetting t.2 "last_full_sync" (SettingVal.natV t.1)
  ({ success := errors.isEmpty, errors := errors },
   { w2 with syncInProgress := false })

/-- syncAll of GoogleDriveSyncManager: the guarded full sync. -/
def syncAll (env : FaultEnv) (w : World) : SyncAllResult × World :=
  match syncAllEnter w with
  | (some r, w1) => (r, w1)
  | (none, w1) => syncAllRest env w1

/-- instantSync of GoogleDriveSyncManager: dispatch one domain unit
immediately; the only guard is the presence of an access token, the
syncInProgress lock is not consulted. -/
def instantSync (env : FaultEnv) (w : World) (dataType : String) :
    Bool × World :=
  if w.token.isNone then (false, w)
  else
    match dataType with
    | "notes" => syncNotes env w
    | "tasks" => syncTasks env w
    | "folders" => syncFolders env w
    | "sections" => syncSections env w
    | "settings" => syncSettings env w
    | "activity" => syncActivity env w
    | "media" => syncMedia env w
    | _ => (false, w)

/-- getLastSyncTime of GoogleDriveSyncManager: the stored last_full_sync
time, or none when never set. -/
def getLastSyncTime (w : World) : Option Nat :=
  match lookupSetting w.settings "last_full_sync" with
  | some (SettingVal.natV t) => some t
  | _ => none

/-! Projection lemmas for the state primitives, used to walk the branches
of the domain units symbolically. -/

@[simp] theorem pushEv_clock (w : World) (e : Ev) : (pushEv w e).clock = w.clock := rfl

@[simp] theorem pushEv_settings (w : World) (e : Ev) : (pushEv w e).settings = w.settings := rfl

@[simp] theorem pushEv_localNotes (w : World) (e : Ev) : (pushEv w e).localNotes = w.localNotes := rfl

@[simp] theorem pushEv_localTasks (w : World) (e : Ev) : (pushEv w e).localTasks = w.localTasks := rfl

@[simp] theorem pushEv_localFolders (w : World) (e : Ev) : (pushEv w e).localFolders = w.localFolders := rfl

@[simp] theorem pushEv_drive (w : World) (e : Ev) : (pushEv w e).drive = w.drive := rfl

@[simp] theorem pushEv_token (w : World) (e : Ev) : (pushEv w e).token = w.token := rfl

@[simp] theorem pushEv_flag (w : World) (e : Ev) : (pushEv w e).syncInProgress = w.syncInProgress := rfl

@[simp] theorem pushEv_trace (w : World) (e : Ev) : (pushEv w e).trace = w.trace ++ [e] := rfl

@[simp] theorem tick_fst (w : World) : (tick w).1 = w.clock := rfl

@[simp] theorem tick_snd_clock (w : World) : (tick w).2.clock = w.clock + 1 := rfl

@[simp] theorem tick_snd_settings (w : World) : (tick w).2.settings = w.settings := rfl

@[simp] theorem tick_snd_localNotes (w : World) : (tick w).2.localNotes = w.localNotes := rfl

@[simp] theorem tick_snd_localTasks (w : World) : (tick w).2.localTasks = w.localTasks := rfl

@[simp] theorem tick_snd_localFolders (w : World) : (tick w).2.localFolders = w.localFolders := rfl

@[simp] theorem tick_snd_drive (w : World) : (tick w).2.drive = w.drive := rfl

@[simp] theorem tick_snd_token (w : World) : (tick w).2.token = w.token := rfl

@[simp] theorem tick_snd_flag (w : World) : (tick w).2.syncInProgress = w.syncInProgress := rfl

@[simp] theorem tick_snd_trace (w : World) : (tick w).2.trace = w.trace := rfl

@[simp] theorem setSetting_clock (w : World) (k : String) (v : SettingVal) : (setSetting w k v).clock = w.clock := rfl

@[simp] theorem setSetting_localNotes (w : World) (k : String) (v : SettingVal) : (setSetting w k v).localNotes = w.localNotes := rfl

@[simp] theorem setSetting_localTasks (w : World) (k : String) (v : SettingVal) : (setSetting w k v).localTasks = w.localTasks := rfl

@[simp] theorem setSetting_localFolders (w : World) (k : String) (v : SettingVal) : (setSetting w k v).localFolders = w.localFolders := rfl

@[simp] theorem setSetting_drive (w : World) (k : String) (v : SettingVal) : (setSetting w k v).drive = w.drive := rfl

@[simp] theorem setSetting_token (w : World) (k : String) (v : SettingVal) : (setSetting w k v).token = w.token := rfl

@[simp] theorem setSetting_flag (w : World) (k : String) (v : SettingVal) : (setSetting w k v).syncInProgress = w.syncInProgress := rfl

@[simp] theorem setSetting_trace (w : World) (k : String) (v : SettingVal) : (setSetting w k v).trace = w.trace := rfl

theorem setSetting_settings (w : World) (k : String) (v : SettingVal) : (setSetting w k v).settings = setSettingKV w.settings k v := rfl

@[simp] theorem getDeviceId_snd_drive (w : World) : (getDeviceId w).2.drive = w.drive := by
  unfold getDeviceId
  split <;> rfl

@[simp] theorem getDeviceId_snd_token (w : World) : (getDeviceId w).2.token = w.token := by
  unfold getDeviceId
  split <;> rfl

@[simp] theorem getDeviceId_snd_localNotes (w : World) : (getDeviceId w).2.localNotes = w.localNotes := by
  unfold getDeviceId
  split <;> rfl

@[simp] theorem getDeviceId_snd_localTasks (w : World) : (getDeviceId w).2.localTasks = w.localTasks := by
  unfold getDeviceId
  split <;> rfl

@[simp] theorem getDeviceId_snd_localFolders (w : World) : (getDeviceId w).2.localFolders = w.localFolders := by
  unfold getDeviceId
  split <;> rfl

@[simp] theorem getDeviceId_snd_flag (w : World) : (getDeviceId w).2.syncInProgress = w.syncInProgress := by
  unfold getDeviceId
  split <;> rfl

@[simp] theorem getDeviceId_snd_trace (w : World) : (getDeviceId w).2.trace = w.trace := by
  unfold getDeviceId
  split <;> rfl

/-- A provisioned device id is returned as is, with no state change. -/
theorem getDeviceId_of_stored (w : World) (h : storedDeviceId w ≠ "") :
    getDeviceId w = (storedDeviceId w, w) := by
  unfold getDeviceId
  simp [h]

theorem finishUnit_fst (w : World) (k : String) : (finishUnit w k).1 = true := rfl

@[simp] theorem finishUnit_snd_drive (w : World) (k : String) : (finishUnit w k).2.drive = w.drive := rfl

@[simp] theorem finishUnit_snd_token (w : World) (k : String) : (finishUnit w k).2.token = w.token := rfl

@[simp] theorem finishUnit_snd_localNotes (w : World) (k : String) : (finishUnit w k).2.localNotes = w.localNotes := rfl

@[simp] theorem finishUnit_snd_localTasks (w : World) (k : String) : (finishUnit w k).2.localTasks = w.localTasks := rfl

@[simp] theorem finishUnit_snd_localFolders (w : World) (k : String) : (finishUnit w k).2.localFolders = w.localFolders := rfl

@[simp] theorem finishUnit_snd_flag (w : World) (k : String) : (finishUnit w k).2.syncInProgress = w.syncInProgress := rfl

theorem finishUnit_snd_settings (w : World) (k : String) :
    (finishUnit w k).2.settings = setSettingKV w.settings k (SettingVal.natV w.clock) := rfl

theorem finishUnit_snd_clock (w : World) (k : String) : (finishUnit w k).2.clock = w.clock + 1 := rfl

@[simp] theorem ensureValidToken_snd_settings (env : FaultEnv) (w : World) :
    (ensureValidToken env w).2.settings = w.settings := by
  unfold ensureValidToken
  rcases w.token with _ | t
  · rfl
  · dsimp only
    split
    · rfl
    · split <;> rfl

@[simp] theorem ensureValidToken_snd_drive (env : FaultEnv) (w : World) :
    (ensureValidToken env w).2.drive = w.drive := by
  unfold ensureValidToken
  rcases w.token with _ | t
  · rfl
  · dsimp only
    split
    · rfl
    · split <;> rfl

@[simp] theorem ensureValidToken_snd_clock (env : FaultEnv) (w : World) :
    (ensureValidToken env w).2.clock = w.clock := by
  unfold ensureValidToken
  rcases w.token with _ | t
  · rfl
  · dsimp only
    split
    · rfl
    · split <;> rfl

@[simp] theorem ensureValidToken_snd_localNotes (env : FaultEnv) (w : World) :
    (ensureValidToken env w).2.localNotes = w.localNotes := by
  unfold ensureValidToken
  rcases w.token with _ | t
  · rfl
  · dsimp only
    split
    · rfl
    · split <;> rfl

@[simp] theorem ensureValidToken_snd_localTasks (env : FaultEnv) (w : World) :
    (ensureValidToken env w).2.localTasks = w.localTasks := by
  unfold ensureValidToken
  rcases w.token with _ | t
  · rfl
  · dsimp only
    split
    · rfl
    · split <;> rfl

@[simp] theorem ensureValidToken_snd_localFolders (env : FaultEnv) (w : World) :
    (ensureValidToken env w).2.localFolders = w.localFolders := by
  unfold ensureValidToken
  rcases w.token with _ | t
  · rfl
  · dsimp only
    split
    · rfl
    · split <;> rfl

@[simp] theorem ensureValidToken_snd_flag (env : FaultEnv) (w : World) :
    (ensureValidToken env w).2.syncInProgress = w.syncInProgress := by
  unfold ensureValidToken
  rcases w.token with _ | t
  · rfl
  · dsimp only
    split
    · rfl
    · split <;> rfl

theorem ensureValidToken_snd_token_isSome (env : FaultEnv) (w : World) :
    (ensureValidToken env w).2.token.isSome = w.token.isSome := by
  unfold ensureValidToken
  rcases h : w.token with _ | t
  · simp [h]
  · simp only [h]
    split
    · simp [h]
    · split <;> simp [h]

theorem ensureValidToken_fst_isSome (env : FaultEnv) (w : World) :
    (ensureValidToken env w).1.isSome =
      (w.token.isSome && (env.tokenOk || env.refreshed.isSome)) := by
  unfold ensureValidToken
  rcases w.token with _ | t
  · rfl
  · dsimp only
    split
    · simp_all
    · rcases h : env.refreshed with _ | nt <;> simp_all

/-- ensureValidToken with a valid current token succeeds with that token
and only records the probe request. -/
theorem ensureValidToken_ok (env : FaultEnv) (w : World) (t : String)
    (htok : w.token = some t) (hok : env.tokenOk = true) :
    ensureValidToken env w = (some t, pushEv w Ev.probeToken) := by
  unfold ensureValidToken
  simp [htok, hok]

theorem getLocalDataWithMetadata_fst {α : Type} (w : World) (key : String) (data : α) :
    (getLocalDataWithMetadata w key data).1 =
      ⟨data, ⟨getSettingNat w ("sync_" ++ key ++ "_time") 0, (getDeviceId w).1, 1⟩⟩ := rfl

theorem getLocalDataWithMetadata_snd {α : Type} (w : World) (key : String) (data : α) :
    (getLocalDataWithMetadata w key data).2 = (getDeviceId w).2 := rfl

@[simp] theorem findNotesFile_snd (env : FaultEnv) (w : World) : (findNotesFile env w).2 = pushEv w (Ev.findReq notesFileName) := rfl

@[simp] theorem findTasksFile_snd (env : FaultEnv) (w : World) : (findTasksFile env w).2 = pushEv w (Ev.findReq tasksFileName) := rfl

@[simp] theorem findFoldersFile_snd (env : FaultEnv) (w : World) : (findFoldersFile env w).2 = pushEv w (Ev.findReq foldersFileName) := rfl

@[simp] theorem findSectionsFile_snd (env : FaultEnv) (w : World) : (findSectionsFile env w).2 = pushEv w (Ev.findReq sectionsFileName) := rfl

@[simp] theorem findSettingsFile_snd (env : FaultEnv) (w : World) : (findSettingsFile env w).2 = pushEv w (Ev.findReq settingsFileName) := rfl

@[simp] theorem findActivityFile_snd (env : FaultEnv) (w : World) : (findActivityFile env w).2 = pushEv w (Ev.findReq activityFileName) := rfl

@[simp] theorem findMediaFile_snd (env : FaultEnv) (w : World) : (findMediaFile env w).2 = pushEv w (Ev.findReq mediaFileName) := rfl

@[simp] theorem readNotesFile_snd (env : FaultEnv) (w : World) (fid : Nat) : (readNotesFile env w fid).2 = pushEv w (Ev.readReq notesFileName) := rfl

@[simp] theorem readTasksFile_snd (env : FaultEnv) (w : World) (fid : Nat) : (readTasksFile env w fid).2 = pushEv w (Ev.readReq tasksFileName) := rfl

@[simp] theorem readFoldersFile_snd (env : FaultEnv) (w : World) (fid : Nat) : (readFoldersFile env w fid).2 = pushEv w (Ev.readReq foldersFileName) := rfl

@[simp] theorem readSectionsFile_snd (env : FaultEnv) (w : World) (fid : Nat) : (readSectionsFile env w fid).2 = pushEv w (Ev.readReq sectionsFileName) := rfl

@[simp] theorem readSettingsFile_snd (env : FaultEnv) (w : World) (fid : Nat) : (readSettingsFile env w fid).2 = pushEv w (Ev.readReq settingsFileName) := rfl

@[simp] theorem readActivityFile_snd (env : FaultEnv) (w : World) (fid : Nat) : (readActivityFile env w fid).2 = pushEv w (Ev.readReq activityFileName) := rfl

@[simp] theorem readMediaFile_snd (env : FaultEnv) (w : World) (fid : Nat) : (readMediaFile env w fid).2 = pushEv w (Ev.readReq mediaFileName) := rfl

@[simp] theorem writeNotesFile_token (env : FaultEnv) (w : World) (c : SyncableData (List Note)) (ex : Option Nat) :
    (writeNotesFile env w c ex).token = w.token := by
  unfold writeNotesFile
  split
  · rfl
  · split <;> rfl

@[simp] theorem writeNotesFile_settings (env : FaultEnv) (w : World) (c : SyncableData (List Note)) (ex : Option Nat) :
    (writeNotesFile env w c ex).settings = w.settings := by
  unfold writeNotesFile
  split
  · rfl
  · split <;> rfl

@[simp] theorem writeNotesFile_clock (env : FaultEnv) (w : World) (c : SyncableData (List Note)) (ex : Option Nat) :
    (writeNotesFile env w c ex).clock = w.clock := by
  unfold writeNotesFile
  split
  · rfl
  · split <;> rfl

@[simp] theorem writeNotesFile_localNotes (env : FaultEnv) (w : World) (c : SyncableData (List Note)) (ex : Option Nat) :
    (writeNotesFile env w c ex).localNotes = w.localNotes := by
  unfold writeNotesFile
  split
  · rfl
  · split <;> rfl

@[simp] theorem writeTasksFile_token (env : FaultEnv) (w : World) (c : SyncableData (List Nat)) (ex : Option Nat) :
    (writeTasksFile env w c ex).token = w.token := by
  unfold writeTasksFile
  split
  · rfl
  · split <;> rfl

@[simp] theorem writeTasksFile_settings (env : FaultEnv) (w : World) (c : SyncableData (List Nat)) (ex : Option Nat) :
    (writeTasksFile env w c ex).settings = w.settings := by
  unfold writeTasksFile
  split
  · rfl
  · split <;> rfl

@[simp] theorem writeFoldersFile_token (env : FaultEnv) (w : World) (c : SyncableData (List Nat)) (ex : Option Nat) :
    (writeFoldersFile env w c ex).token = w.token := by
  unfold writeFoldersFile
  split
  · rfl
  · split <;> rfl

@[simp] theorem writeFoldersFile_settings (env : FaultEnv) (w : World) (c : SyncableData (List Nat)) (ex : Option Nat) :
    (writeFoldersFile env w c ex).settings = w.settings := by
  unfold writeFoldersFile
  split
  · rfl
  · split <;> rfl

@[simp] theorem writeSectionsFile_token (env : FaultEnv) (w : World) (c : SyncableData (List Nat)) (ex : Option Nat) :
    (writeSectionsFile env w c ex).token = w.token := by
  unfold writeSectionsFile
  split
  · rfl
  · split <;> rfl

@[simp] theorem writeSectionsFile_settings (env : FaultEnv) (w : World) (c : SyncableData (List Nat)) (ex : Option Nat) :
    (writeSectionsFile env w c ex).settings = w.settings := by
  unfold writeSectionsFile
  split
  · rfl
  · split <;> rfl

@[simp] theorem writeSettingsFile_token (env : FaultEnv) (w : World) (c : SyncableData (List (String × SettingVal))) (ex : Option Nat) :
    (writeSettingsFile env w c ex).token = w.token := by
  unfold writeSettingsFile
  split
  · rfl
  · split <;> rfl

@[simp] theorem writeSettingsFile_settings (env : FaultEnv) (w : World) (c : SyncableData (List (String × SettingVal))) (ex : Option Nat) :
    (writeSettingsFile env w c ex).settings = w.settings := by
  unfold writeSettingsFile
  split
  · rfl
  · split <;> rfl

@[simp] theorem writeActivityFile_token (env : FaultEnv) (w : World) (c : SyncableData (List ActivityEntry)) (ex : Option Nat) :
    (writeActivityFile env w c ex).token = w.token := by
  unfold writeActivityFile
  split
  · rfl
  · split <;> rfl

@[simp] theorem writeActivityFile_settings (env : FaultEnv) (w : World) (c : SyncableData (List ActivityEntry)) (ex : Option Nat) :
    (writeActivityFile env w c ex).settings = w.settings := by
  unfold writeActivityFile
  split
  · rfl
  · split <;> rfl

@[simp] theorem writeMediaFile_token (env : FaultEnv) (w : World) (c : SyncableData MediaIndex) (ex : Option Nat) :
    (writeMediaFile env w c ex).token = w.token := by
  unfold writeMediaFile
  split
  · rfl
  · split <;> rfl

@[simp] theorem writeMediaFile_settings (env : FaultEnv) (w : World) (c : SyncableData MediaIndex) (ex : Option Nat) :
    (writeMediaFile env w c ex).settings = w.settings := by
  unfold writeMediaFile
  split
  · rfl
  · split <;> rfl

/-! Lookup and update lemmas of the key-value settings store. -/

theorem find_map_set (s : List (String × SettingVal)) (k : String) (v : SettingVal)
    (h : s.any (fun kv => kv.1 = k) = true) :
    (s.map (fun kv => if kv.1 = k then (k, v) else kv)).find? (fun kv => kv.1 = k) = some (k, v) := by
  induction s with
  | nil => simp at h
  | cons hd tl ih =>
    by_cases hh : hd.1 = k
    · rw [List.map_cons, if_pos hh, List.find?_cons_of_pos _ (by simp)]
    · rw [List.map_cons, if_neg hh, List.find?_cons_of_neg _ (by simp [hh])]
      apply ih
      simp only [List.any_cons, Bool.or_eq_true, decide_eq_true_eq] at h
      rcases h with h | h
      · exact absurd h hh
      · exact h

theorem find_append_single (s : List (String × SettingVal)) (k : String) (v : SettingVal)
    (h : s.any (fun kv => kv.1 = k) = false) :
    (s ++ [(k, v)]).find? (fun kv => kv.1 = k) = some (k, v) := by
  induction s with
  | nil =>
    rw [List.nil_append, List.find?_cons_of_pos _ (by simp)]
  | cons hd tl ih =>
    simp only [List.any_cons, Bool.or_eq_false_iff, decide_eq_false_iff_not] at h
    rw [List.cons_append, List.find?_cons_of_neg _ (by simp [h.1])]
    exact ih (by simp [h.2])

theorem lookup_setKV_same (s : List (String × SettingVal)) (k : String) (v : SettingVal) :
    lookupSetting (setSettingKV s k v) k = some v := by
  unfold setSettingKV lookupSetting
  split
  next hany =>
    rw [find_map_set s k v hany]
    rfl
  next hany =>
    rw [find_append_single s k v (Bool.eq_false_iff.mpr hany)]
    rfl

theorem find_map_set_ne (s : List (String × SettingVal)) (k aK : String) (v : SettingVal)
    (h : aK ≠ k) :
    (s.map (fun kv => if kv.1 = k then (k, v) else kv)).find? (fun kv => kv.1 = aK) =
      s.find? (fun kv => kv.1 = aK) := by
  induction s with
  | nil => rfl
  | cons hd tl ih =>
    by_cases hh : hd.1 = k
    · rw [List.map_cons, if_pos hh,
        List.find?_cons_of_neg _ (by simp [Ne.symm h]),
        List.find?_cons_of_neg _ (by simp [hh, Ne.symm h])]
      exact ih
    · rw [List.map_cons, if_neg hh]
      by_cases ha : hd.1 = aK
      · rw [List.find?_cons_of_pos _ (by simp [ha]), List.find?_cons_of_pos _ (by simp [ha])]
      · rw [List.find?_cons_of_neg _ (by simp [ha]), List.find?_cons_of_neg _ (by simp [ha])]
        exact ih

theorem find_append_single_ne (s : List (String × SettingVal)) (k aK : String) (v : SettingVal)
    (h : aK ≠ k) :
    (s ++ [(k, v)]).find? (fun kv => kv.1 = aK) = s.find? (fun kv => kv.1 = aK) := by
  induction s with
  | nil =>
    rw [List.nil_append, List.find?_cons_of_neg _ (by simp [Ne.symm h])]
  | cons hd tl ih =>
    rw [List.cons_append]
    by_cases ha : hd.1 = aK
    · rw [List.find?_cons_of_pos _ (by simp [ha]), List.find?_cons_of_pos _ (by simp [ha])]
    · rw [List.find?_cons_of_neg _ (by simp [ha]), List.find?_cons_of_neg _ (by simp [ha])]
      exact ih

theorem lookup_setKV_ne (s : List (String × SettingVal)) (k aK : String) (v : SettingVal)
    (h : aK ≠ k) :
    lookupSetting (setSettingKV s k v) aK = lookupSetting s aK := by
  unfold setSettingKV lookupSetting
  split
  · rw [find_map_set_ne s k aK v h]
  · rw [find_append_single_ne s k aK v h]

/-- Success condition of syncNotes: true iff a usable credential exists
and the local load did not throw; remote find, read and write failures,
missing blobs and malformed content never make the unit fail. -/
theorem syncNotes_fst (env : FaultEnv) (w : World) :
    (syncNotes env w).1 =
      ((w.token.isSome && (env.tokenOk || env.refreshed.isSome)) &&
        !env.loadFails "notes") := by
  have hav := ensureValidToken_fst_isSome env w
  unfold syncNotes
  rcases h : (ensureValidToken env w).1 with _ | t
  · rw [h] at hav
    simp only [Option.isSome_none] at hav
    simp [h, ← hav]
  · rw [h] at hav
    simp only [Option.isSome_some] at hav
    simp only [h]
    by_cases hl : env.loadFails "notes"
    · simp [hl]
    · simp only [hl, ← hav, Bool.not_false, Bool.and_true, Bool.true_and, if_false]
      repeat' split
      all_goals first | exact finishUnit_fst _ _ | simp_all

theorem syncNotes_token (env : FaultEnv) (w : World) :
    (syncNotes env w).2.token.isSome = w.token.isSome := by
  have hpres := ensureValidToken_snd_token_isSome env w
  unfold syncNotes
  rcases h : (ensureValidToken env w).1 with _ | t
  · simpa [h] using hpres
  · simp only [h]
    by_cases hl : env.loadFails "notes"
    · simpa [hl] using hpres
    · simp only [hl, if_false]
      repeat' split
      all_goals simp [getLocalDataWithMetadata_snd, hpres]

theorem foldl_setSetting_token (l : List (String × SettingVal)) (w : World) :
    (l.foldl (fun acc kv => setSetting acc kv.1 kv.2) w).token = w.token := by
  induction l generalizing w with
  | nil => rfl
  | cons hd tl ih => simp [List.foldl_cons, ih]

theorem foldl_setSetting_drive (l : List (String × SettingVal)) (w : World) :
    (l.foldl (fun acc kv => setSetting acc kv.1 kv.2) w).drive = w.drive := by
  induction l generalizing w with
  | nil => rfl
  | cons hd tl ih => simp [List.foldl_cons, ih]

/-- Success condition of syncTasks, in the same form as syncNotes_fst. -/
theorem syncTasks_fst (env : FaultEnv) (w : World) :
    (syncTasks env w).1 =
      ((w.token.isSome && (env.tokenOk || env.refreshed.isSome)) &&
        !env.loadFails "tasks") := by
  have hav := ensureValidToken_fst_isSome env w
  unfold syncTasks
  rcases h : (ensureValidToken env w).1 with _ | t
  · rw [h] at hav
    simp only [Option.isSome_none] at hav
    simp [h, ← hav]
  · rw [h] at hav
    simp only [Option.isSome_some] at hav
    simp only [h]
    by_cases hl : env.loadFails "tasks"
    · simp [hl]
    · simp only [hl, ← hav, Bool.not_false, Bool.and_true, Bool.true_and, if_false]
      repeat' split
      all_goals first | exact finishUnit_fst _ _ | simp_all

theorem syncTasks_token (env : FaultEnv) (w : World) :
    (syncTasks env w).2.token.isSome = w.token.isSome := by
  have hpres := ensureValidToken_snd_token_isSome env w
  unfold syncTasks
  rcases h : (ensureValidToken env w).1 with _ | t
  · simpa [h] using hpres
  · simp only [h]
    by_cases hl : env.loadFails "tasks"
    · simpa [hl] using hpres
    · simp only [hl, if_false]
      repeat' split
      all_goals simp [getLocalDataWithMetadata_snd, hpres]

/-- Success condition of syncFolders, in the same form as syncNotes_fst. -/
theorem syncFolders_fst (env : FaultEnv) (w : World) :
    (syncFolders env w).1 =
      ((w.token.isSome && (env.tokenOk || env.refreshed.isSome)) &&
        !env.loadFails "folders") := by
  have hav := ensureValidToken_fst_isSome env w
  unfold syncFolders
  rcases h : (ensureValidToken env w).1 with _ | t
  · rw [h] at hav
    simp only [Option.isSome_none] at hav
    simp [h, ← hav]
  · rw [h] at hav
    simp only [Option.isSome_some] at hav
    simp only [h]
    by_cases hl : env.loadFails "folders"
    · simp [hl]
    · simp only [hl, ← hav, Bool.not_false, Bool.and_true, Bool.true_and, if_false]
      repeat' split
      all_goals first | exact finishUnit_fst _ _ | simp_all

theorem syncFolders_token (env : FaultEnv) (w : World) :
    (syncFolders env w).2.token.isSome = w.token.isSome := by
  have hpres := ensureValidToken_snd_token_isSome env w
  unfold syncFolders
  rcases h : (ensureValidToken env w).1 with _ | t
  · simpa [h] using hpres
  · simp only [h]
    by_cases hl : env.loadFails "folders"
    · simpa [hl] using hpres
    · simp only [hl, if_false]
      repeat' split
      all_goals simp [getLocalDataWithMetadata_snd, hpres]

/-- Success condition of syncSections, in the same form as syncNotes_fst. -/
theorem syncSections_fst (env : FaultEnv) (w : World) :
    (syncSections env w).1 =
      ((w.token.isSome && (env.tokenOk || env.refreshed.isSome)) &&
        !env.loadFails "sections") := by
  have hav := ensureValidToken_fst_isSome env w
  unfold syncSections
  rcases h : (ensureValidToken env w).1 with _ | t
  · rw [h] at hav
    simp only [Option.isSome_none] at hav
    simp [h, ← hav]
  · rw [h] at hav
    simp only [Option.isSome_some] at hav
    simp only [h]
    by_cases hl : env.loadFails "sections"
    · simp [hl]
    · simp only [hl, ← hav, Bool.not_false, Bool.and_true, Bool.true_and, if_false]
      repeat' split
      all_goals first | exact finishUnit_fst _ _ | simp_all

theorem syncSections_token (env : FaultEnv) (w : World) :
    (syncSections env w).2.token.isSome = w.token.isSome := by
  have hpres := ensureValidToken_snd_token_isSome env w
  unfold syncSections
  rcases h : (ensureValidToken env w).1 with _ | t
  · simpa [h] using hpres
  · simp only [h]
    by_cases hl : env.loadFails "sections"
    · simpa [hl] using hpres
    · simp only [hl, if_false]
      repeat' split
      all_goals simp [getLocalDataWithMetadata_snd, hpres]

/-- Success condition of syncSettings, in the same form as syncNotes_fst. -/
theorem syncSettings_fst (env : FaultEnv) (w : World) :
    (syncSettings env w).1 =
      ((w.token.isSome && (env.tokenOk || env.refreshed.isSome)) &&
        !env.loadFails "settings") := by
  have hav := ensureValidToken_fst_isSome env w
  unfold syncSettings
  rcases h : (ensureValidToken env w).1 with _ | t
  · rw [h] at hav
    simp only [Option.isSome_none] at hav
    simp [h, ← hav]
  · rw [h] at hav
    simp only [Option.isSome_some] at hav
    simp only [h]
    by_cases hl : env.loadFails "settings"
    · simp [hl]
    · simp only [hl, ← hav, Bool.not_false, Bool.and_true, Bool.true_and, if_false]
      repeat' split
      all_goals first | exact finishUnit_fst _ _ | simp_all

theorem syncSettings_token (env : FaultEnv) (w : World) :
    (syncSettings env w).2.token.isSome = w.token.isSome := by
  have hpres := ensureValidToken_snd_token_isSome env w
  unfold syncSettings
  rcases h : (ensureValidToken env w).1 with _ | t
  · simpa [h] using hpres
  · simp only [h]
    by_cases hl : env.loadFails "settings"
    · simpa [hl] using hpres
    · simp only [hl, if_false]
      repeat' split
      all_goals simp [getLocalDataWithMetadata_snd, foldl_setSetting_token, hpres]

/-- Success condition of syncActivity, in the same form as syncNotes_fst. -/
theorem syncActivity_fst (env : FaultEnv) (w : World) :
    (syncActivity env w).1 =
      ((w.token.isSome && (env.tokenOk || env.refreshed.isSome)) &&
        !env.loadFails "activity") := by
  have hav := ensureValidToken_fst_isSome env w
  unfold syncActivity
  rcases h : (ensureValidToken env w).1 with _ | t
  · rw [h] at hav
    simp only [Option.isSome_none] at hav
    simp [h, ← hav]
  · rw [h] at hav
    simp only [Option.isSome_some] at hav
    simp only [h]
    by_cases hl : env.loadFails "activity"
    · simp [hl]
    · simp only [hl, ← hav, Bool.not_false, Bool.and_true, Bool.true_and, if_false]
      repeat' split
      all_goals first | exact finishUnit_fst _ _ | simp_all

theorem syncActivity_token (env : FaultEnv) (w : World) :
    (syncActivity env w).2.token.isSome = w.token.isSome := by
  have hpres := ensureValidToken_snd_token_isSome env w
  unfold syncActivity
  rcases h : (ensureValidToken env w).1 with _ | t
  · simpa [h] using hpres
  · simp only [h]
    by_cases hl : env.loadFails "activity"
    · simpa [hl] using hpres
    · simp only [hl, if_false]
      repeat' split
      all_goals simp [getLocalDataWithMetadata_snd, hpres]

/-- Success condition of syncMedia, in the same form as syncNotes_fst. -/
theorem syncMedia_fst (env : FaultEnv) (w : World) :
    (syncMedia env w).1 =
      ((w.token.isSome && (env.tokenOk || env.refreshed.isSome)) &&
        !env.loadFails "media") := by
  have hav := ensureValidToken_fst_isSome env w
  unfold syncMedia
  rcases h : (ensureValidToken env w).1 with _ | t
  · rw [h] at hav
    simp only [Option.isSome_none] at hav
    simp [h, ← hav]
  · rw [h] at hav
    simp only [Option.isSome_some] at hav
    simp only [h]
    by_cases hl : env.loadFails "media"
    · simp [hl]
    · simp only [hl, ← hav, Bool.not_false, Bool.and_true, Bool.true_and, if_false]
      repeat' split
      all_goals first | exact finishUnit_fst _ _ | simp_all

theorem syncMedia_token (env : FaultEnv) (w : World) :
    (syncMedia env w).2.token.isSome = w.token.isSome := by
  have hpres := ensureValidToken_snd_token_isSome env w
  unfold syncMedia
  rcases h : (ensureValidToken env w).1 with _ | t
  · simpa [h] using hpres
  · simp only [h]
    by_cases hl : env.loadFails "media"
    · simpa [hl] using hpres
    · simp only [hl, if_false]
      repeat' split
      all_goals simp [getLocalDataWithMetadata_snd, hpres]

/-- Results of the seven units in a fan-out: each domain's Bool depends
only on the availability of a credential and on its own local fault,
never on the outcome of another domain. -/
theorem runUnits_results (env : FaultEnv) (w : World) :
    (runUnits env w).1 = syncTypes.map (fun d =>
      (w.token.isSome && (env.tokenOk || env.refreshed.isSome)) && !env.loadFails d) := by
  unfold runUnits
  have q1 := syncNotes_token env w
  have q2 := syncTasks_token env (syncNotes env w).2
  have q3 := syncFolders_token env (syncTasks env (syncNotes env w).2).2
  have q4 := syncSections_token env
    (syncFolders env (syncTasks env (syncNotes env w).2).2).2
  have q5 := syncSettings_token env
    (syncSections env (syncFolders env (syncTasks env (syncNotes env w).2).2).2).2
  have q6 := syncActivity_token env
    (syncSettings env (syncSections env (syncFolders env (syncTasks env (syncNotes env w).2).2).2).2).2
  simp only [syncNotes_fst, syncTasks_fst, syncFolders_fst, syncSections_fst,
    syncSettings_fst, syncActivity_fst, syncMedia_fst, q1, q2, q3, q4, q5, q6,
    syncTypes, List.map_cons, List.map_nil]

theorem zip_filterMap_filter (types : List String) (f : String → Bool) (m : String → String) :
    (types.zip (types.map f)).filterMap (fun tr => if tr.2 then none else some (m tr.1)) =
      (types.filter (fun d => !(f d))).map m := by
  induction types with
  | nil => rfl
  | cons hd tl ih =>
    by_cases hf : f hd <;> simp [hf, ih]

/-- Reduction of syncAll when the lock is free. -/
theorem syncAll_of_free (env : FaultEnv) (w : World) (h : w.syncInProgress = false) :
    syncAll env w = syncAllRest env { w with syncInProgress := true } := by
  unfold syncAll syncAllEnter
  simp [h]

/-- C2: a syncAll issued while a full sync is in flight is rejected by the
boolean lock: the first call's synchronous prefix takes the lock, and a
second call against the resulting state returns the busy failure
immediately, leaving the World (local stores, remote Drive and request
trace alike) completely unchanged, so exactly one of the two calls
executes. -/
theorem syncAll_busy_rejected (env2 : FaultEnv) (w : World)
    (h : w.syncInProgress = false) :
    (syncAllEnter w).1 = none ∧
    (syncAllEnter w).2.syncInProgress = true ∧
    syncAll env2 (syncAllEnter w).2 = (busyResult, (syncAllEnter w).2) ∧
    busyResult.success = false ∧
    busyResult.errors = ["Sync already in progress"] := by
  have h1 : syncAllEnter w = (none, { w with syncInProgress := true }) := by
    unfold syncAllEnter
    simp [h]
  refine ⟨by simp [h1], by simp [h1], ?_, rfl, rfl⟩
  rw [h1]
  unfold syncAll syncAllEnter
  simp

/-- C3: in a non-busy syncAll all seven domain units run and settle
independently: the error list is exactly one entry per failed domain (the
string Failed to sync followed by the domain label), where a domain fails
iff no credential is available or its own local load fault fired, and
success holds iff the error list is empty. -/
theorem syncAll_domain_isolation (env : FaultEnv) (w : World)
    (h : w.syncInProgress = false) :
    (syncAll env w).1.errors =
      (syncTypes.filter (fun d =>
        !((w.token.isSome && (env.tokenOk || env.refreshed.isSome)) &&
          !env.loadFails d))).map (fun d => "Failed to sync " ++ d) ∧
    ((syncAll env w).1.success = true ↔ (syncAll env w).1.errors = []) := by
  rw [syncAll_of_free env w h]
  have hr := runUnits_results env { w with syncInProgress := true }
  unfold syncAllRest
  rcases hru : runUnits env { w with syncInProgress := true } with ⟨results, wend⟩
  rw [hru] at hr
  simp only at hr
  simp only [hr]
  rw [zip_filterMap_filter]
  constructor
  · rfl
  · simp [List.isEmpty_iff]

/-- Witness world: an idle manager with a token and empty stores. -/
def w0 : World :=
  { clock := 0, settings := [], localNotes := [], localTasks := [],
    localFolders := [],
    drive := { nextId := 0, notesFiles := [], tasksFiles := [],
               foldersFiles := [], sectionsFiles := [], settingsFiles := [],
               activityFiles := [], mediaFiles := [] },
    token := some "tok", syncInProgress := false, trace := [] }

/-- Witness for C2 at the concrete idle world w0. -/
theorem syncAll_busy_rejected_witness :
    (syncAllEnter w0).1 = none ∧
    (syncAllEnter w0).2.syncInProgress = true ∧
    syncAll allOk (syncAllEnter w0).2 = (busyResult, (syncAllEnter w0).2) ∧
    busyResult.success = false ∧
    busyResult.errors = ["Sync already in progress"] :=
  syncAll_busy_rejected allOk w0 rfl

/-- Fault environment failing exactly the tasks domain's local load. -/
def envTasksFault : FaultEnv :=
  { tokenOk := true, refreshed := none,
    loadFails := fun d => d = "tasks", findFails := fun _ => false,
    readFails := fun _ => false, writeFails := fun _ => false }

/-- Witness for C3: with only the tasks domain forced to fail, the report
lists exactly the tasks failure and success is false. -/
theorem syncAll_domain_isolation_witness :
    (syncAll envTasksFault w0).1.errors = ["Failed to sync tasks"] ∧
    ((syncAll envTasksFault w0).1.success = true ↔
      (syncAll envTasksFault w0).1.errors = []) := by
  have h := syncAll_domain_isolation envTasksFault w0 rfl
  refine ⟨?_, h.2⟩
  rw [h.1]
  rfl

/-- C10: every syncAll not rejected as busy persists a fresh
last_full_sync timestamp before returning, whatever the per-domain
outcomes, so getLastSyncTime is non-null afterwards; the stored value is
the clock reading taken just before the report is returned. -/
theorem syncAll_sets_lastFullSync (env : FaultEnv) (w : World)
    (h : w.syncInProgress = false) :
    ∃ t, getLastSyncTime (syncAll env w).2 = some t ∧
      (syncAll env w).2.clock = t + 1 := by
  rw [syncAll_of_free env w h]
  unfold syncAllRest
  rcases hru : runUnits env { w with syncInProgress := true } with ⟨results, wend⟩
  refine ⟨wend.clock, ?_, by simp⟩
  show getLastSyncTime
    { (setSetting (tick wend).2 "last_full_sync" (SettingVal.natV wend.clock)) with
        syncInProgress := false } = some wend.clock
  unfold getLastSyncTime
  rw [show ({ (setSetting (tick wend).2 "last_full_sync" (SettingVal.natV wend.clock)) with
        syncInProgress := false } : World).settings
      = setSettingKV wend.settings "last_full_sync" (SettingVal.natV wend.clock) from rfl]
  rw [lookup_setKV_same]

/-- Witness for C10 at the concrete idle world w0 under the all-ok
environment. -/
theorem syncAll_sets_lastFullSync_witness :
    ∃ t, getLastSyncTime (syncAll allOk w0).2 = some t ∧
      (syncAll allOk w0).2.clock = t + 1 :=
  syncAll_sets_lastFullSync allOk w0 rfl

/-- Busy world: the state during an in-flight syncAll, with the lock
taken. -/
def w0busy : World := { w0 with syncInProgress := true }

/-- Counterexample to C4: while the global busy flag of a full sync is
set, instantSync for the notes domain still runs to completion and writes
the notes blob remotely (a create in this state), so no lock granularity
prevents a domain-scoped sync from writing the same blob a concurrent
full sync writes: instantSync never consults the lock. -/
theorem instantSync_ignores_lock_cex :
    w0busy.syncInProgress = true ∧
    (instantSync allOk w0busy "notes").1 = true ∧
    Ev.writeReq notesFileName true ∈ (instantSync allOk w0busy "notes").2.trace ∧
    (instantSync allOk w0busy "notes").2.drive.notesFiles ≠ [] := by
  refine ⟨rfl, ?_, ?_, ?_⟩ <;> decide

/-- C4 amended: the implementation has no lock preventing the overlap; a
domain-scoped instantSync runs its Domain Sync Unit even while the global
busy flag of a full sync is set, guarded only by the presence of an
access token, and its success value is independent of the flag. -/
theorem instantSync_ignores_lock (env : FaultEnv) (w : World)
    (htok : w.token.isSome = true) (hbusy : w.syncInProgress = true) :
    instantSync env w "notes" = syncNotes env w ∧
    instantSync env w "tasks" = syncTasks env w ∧
    instantSync env w "folders" = syncFolders env w ∧
    instantSync env w "sections" = syncSections env w ∧
    instantSync env w "settings" = syncSettings env w ∧
    instantSync env w "activity" = syncActivity env w ∧
    instantSync env w "media" = syncMedia env w ∧
    ((instantSync env { w with syncInProgress := false } "notes").1 =
      (instantSync env w "notes").1) := by
  have hnone : w.token.isNone = false := by
    rcases h : w.token with _ | t
    · rw [h] at htok
      simp at htok
    · rfl
  have hnone2 : ({ w with syncInProgress := false } : World).token.isNone = false := hnone
  refine ⟨?_, ?_, ?_, ?_, ?_, ?_, ?_, ?_⟩
  · unfold instantSync
    simp [hnone]
  · unfold instantSync
    simp [hnone]
  · unfold instantSync
    simp [hnone]
  · unfold instantSync
    simp [hnone]
  · unfold instantSync
    simp [hnone]
  · unfold instantSync
    simp [hnone]
  · unfold instantSync
    simp [hnone]
  · unfold instantSync
    simp only [hnone, hnone2, Bool.false_eq_true, if_false]
    rw [syncNotes_fst, syncNotes_fst]

/-- Witness for the amended C4 at the concrete busy world. -/
theorem instantSync_ignores_lock_witness :
    instantSync allOk w0busy "notes" = syncNotes allOk w0busy ∧
    instantSync allOk w0busy "tasks" = syncTasks allOk w0busy ∧
    instantSync allOk w0busy "folders" = syncFolders allOk w0busy ∧
    instantSync allOk w0busy "sections" = syncSections allOk w0busy ∧
    instantSync allOk w0busy "settings" = syncSettings allOk w0busy ∧
    instantSync allOk w0busy "activity" = syncActivity allOk w0busy ∧
    instantSync allOk w0busy "media" = syncMedia allOk w0busy ∧
    ((instantSync allOk { w0busy with syncInProgress := false } "notes").1 =
      (instantSync allOk w0busy "notes").1) :=
  instantSync_ignores_lock allOk w0busy rfl rfl

/-- Ids of a list of activity entries. -/
def idsOf (xs : List ActivityEntry) : List Nat := xs.map (fun e => e.id)

@[simp] theorem idsOf_nil : idsOf [] = [] := rfl

@[simp] theorem idsOf_cons (e : ActivityEntry) (xs : List ActivityEntry) :
    idsOf (e :: xs) = e.id :: idsOf xs := rfl

@[simp] theorem idsOf_append (a b : List ActivityEntry) :
    idsOf (a ++ b) = idsOf a ++ idsOf b := List.map_append _ a b

theorem dedup_aux_mem (xs : List ActivityEntry) (acc : List ActivityEntry) (i : Nat) :
    (i ∈ idsOf (xs.foldl
      (fun acc e => if acc.any (fun x => x.id = e.id) then acc else acc ++ [e]) acc)) ↔
      (i ∈ idsOf acc ∨ i ∈ idsOf xs) := by
  induction xs generalizing acc with
  | nil => simp
  | cons hd tl ih =>
    rw [List.foldl_cons, ih]
    by_cases h : acc.any (fun x => x.id = hd.id)
    · have hmem : hd.id ∈ idsOf acc := by
        simpa [idsOf, List.any_eq_true] using h
      rw [if_pos h]
      simp only [idsOf_cons, List.mem_cons]
      constructor
      · rintro (ha | hb)
        · exact Or.inl ha
        · exact Or.inr (Or.inr hb)
      · rintro (ha | hb | hc)
        · exact Or.inl ha
        · subst hb
          exact Or.inl hmem
        · exact Or.inr hc
    · rw [if_neg h]
      simp only [idsOf_append, idsOf_cons, idsOf_nil, List.mem_append,
        List.mem_cons, List.mem_singleton, List.not_mem_nil, or_false]
      tauto

theorem dedup_aux_nodup (xs : List ActivityEntry) (acc : List ActivityEntry)
    (h : (idsOf acc).Nodup) :
    (idsOf (xs.foldl
      (fun acc e => if acc.any (fun x => x.id = e.id) then acc else acc ++ [e]) acc)).Nodup := by
  induction xs generalizing acc with
  | nil => simpa using h
  | cons hd tl ih =>
    rw [List.foldl_cons]
    apply ih
    by_cases hh : acc.any (fun x => x.id = hd.id)
    · rw [if_pos hh]
      exact h
    · have hnot : hd.id ∉ idsOf acc := by
        intro hc
        simp only [idsOf, List.mem_map] at hc
        obtain ⟨x, hx, hxid⟩ := hc
        exact hh (List.any_eq_true.mpr ⟨x, hx, by simp [hxid]⟩)
      rw [if_neg hh, idsOf_append]
      simp only [List.nodup_append, idsOf_cons, idsOf_nil]
      refine ⟨h, by simp, ?_⟩
      intro a ha hb
      simp only [List.mem_cons, List.not_mem_nil, or_false] at hb
      subst hb
      exact hnot ha

/-- Every id occurring in either input occurs in the merged activity
log. -/
theorem mergeActivityLogs_mem (r l : List ActivityEntry) (i : Nat) :
    i ∈ idsOf (mergeActivityLogs r l) ↔ (i ∈ idsOf r ∨ i ∈ idsOf l) := by
  unfold mergeActivityLogs dedupById
  rw [dedup_aux_mem]
  simp

/-- The merged activity log has no duplicate ids. -/
theorem mergeActivityLogs_nodup (r l : List ActivityEntry) :
    (idsOf (mergeActivityLogs r l)).Nodup := by
  unfold mergeActivityLogs dedupById
  exact dedup_aux_nodup _ [] (by simp)

@[simp] theorem allOk_loadFails (s : String) : allOk.loadFails s = false := rfl

@[simp] theorem findActivityFile_allOk (w : World) :
    findActivityFile allOk w =
      (slotFind w.drive.activityFiles, pushEv w (Ev.findReq activityFileName)) := rfl

@[simp] theorem readActivityFile_allOk (w : World) (fid : Nat) :
    readActivityFile allOk w fid =
      (slotReadAt w.drive.activityFiles fid, pushEv w (Ev.readReq activityFileName)) := rfl

@[simp] theorem getActivities_pushEv (w : World) (e : Ev) :
    getActivities (pushEv w e) = getActivities w := rfl

@[simp] theorem getSettingNat_pushEv (w : World) (e : Ev) (k : String) (d : Nat) :
    getSettingNat (pushEv w e) k d = getSettingNat w k d := rfl

/-- C5: when conflict resolution picks the remote side for the activity
domain, the persisted local log is the id-deduplicated union of the
remote entries (first) and the local entries: every id of either side
occurs exactly once and none is lost; on the inputs of the spec's
example, local ids 1 and 2 and remote ids 2 and 3, the persisted ids are
exactly 2, 3 and 1. -/
theorem syncActivity_union_merge (w : World) (f : DFile (List ActivityEntry))
    (renv : SyncableData (List ActivityEntry)) (t : String)
    (htok : w.token = some t)
    (hfind : w.drive.activityFiles.head? = some f)
    (hread : slotReadAt w.drive.activityFiles f.id = some renv)
    (hwin : ¬ getSettingNat w "sync_activity_time" 0 > renv.metadata.lastSyncTime) :
    (syncActivity allOk w).1 = true ∧
    lookupSetting (syncActivity allOk w).2.settings "userActivityLog" =
      some (SettingVal.activitiesV (mergeActivityLogs renv.data (getActivities w))) ∧
    (∀ i, i ∈ idsOf (mergeActivityLogs renv.data (getActivities w)) ↔
      (i ∈ idsOf renv.data ∨ i ∈ idsOf (getActivities w))) ∧
    (idsOf (mergeActivityLogs renv.data (getActivities w))).Nodup ∧
    idsOf (mergeActivityLogs [⟨2, 0⟩, ⟨3, 0⟩] [⟨1, 0⟩, ⟨2, 0⟩]) = [2, 3, 1] := by
  have hev : ensureValidToken allOk w = (some t, pushEv w Ev.probeToken) :=
    ensureValidToken_ok allOk w t htok rfl
  refine ⟨?_, ?_, mergeActivityLogs_mem renv.data (getActivities w),
    mergeActivityLogs_nodup renv.data (getActivities w), by decide⟩
  · rw [syncActivity_fst]
    simp [htok, allOk]
  · unfold syncActivity
    rw [hev]
    have hkey : ("sync_" ++ "activity" ++ "_time" : String) = "sync_activity_time" := rfl
    simp only [allOk_loadFails, Bool.false_eq_true, if_false,
      getLocalDataWithMetadata_snd, getLocalDataWithMetadata_fst,
      findActivityFile_allOk, readActivityFile_allOk, getActivities_pushEv,
      getSettingNat_pushEv, getDeviceId_snd_drive, pushEv_drive, slotFind, hkey]
    rw [hfind]
    simp only []
    rw [hread]
    simp only []
    have hres : resolveConflict
        { data := getActivities w,
          metadata :=
            { lastSyncTime := getSettingNat w "sync_activity_time" 0,
              deviceId := (getDeviceId (pushEv w Ev.probeToken)).1, version := 1 } }
        renv = { winner := "remote", data := renv.data } := by
      unfold resolveConflict
      rw [if_neg hwin]
    rw [hres]
    simp only [if_true]
    rw [finishUnit_snd_settings, lookup_setKV_ne _ _ _ _ (by decide),
      setSetting_settings, lookup_setKV_same]

/-- Remote activity envelope with ids 2 and 3 and a newer timestamp. -/
def actRemoteEnv : SyncableData (List ActivityEntry) :=
  ⟨[⟨2, 0⟩, ⟨3, 0⟩], ⟨7, "dev2", 1⟩⟩

/-- Drive file holding the remote activity envelope. -/
def actFile : DFile (List ActivityEntry) := ⟨0, RContent.good actRemoteEnv⟩

/-- World with local activity ids 1 and 2, a local sync time older than
the remote envelope, and the remote activity blob present. -/
def wAct : World :=
  { clock := 10,
    settings := [("userActivityLog", SettingVal.activitiesV [⟨1, 0⟩, ⟨2, 0⟩]),
                 ("sync_activity_time", SettingVal.natV 5),
                 ("device_id", SettingVal.str "dev")],
    localNotes := [], localTasks := [], localFolders := [],
    drive := { nextId := 1, notesFiles := [], tasksFiles := [],
               foldersFiles := [], sectionsFiles := [], settingsFiles := [],
               activityFiles := [actFile], mediaFiles := [] },
    token := some "tok", syncInProgress := false, trace := [] }

/-- Witness for C5 at the concrete world wAct. -/
theorem syncActivity_union_merge_witness :
    (syncActivity allOk wAct).1 = true ∧
    lookupSetting (syncActivity allOk wAct).2.settings "userActivityLog" =
      some (SettingVal.activitiesV
        (mergeActivityLogs actRemoteEnv.data (getActivities wAct))) ∧
    (∀ i, i ∈ idsOf (mergeActivityLogs actRemoteEnv.data (getActivities wAct)) ↔
      (i ∈ idsOf actRemoteEnv.data ∨ i ∈ idsOf (getActivities wAct))) ∧
    (idsOf (mergeActivityLogs actRemoteEnv.data (getActivities wAct))).Nodup ∧
    idsOf (mergeActivityLogs [⟨2, 0⟩, ⟨3, 0⟩] [⟨1, 0⟩, ⟨2, 0⟩]) = [2, 3, 1] :=
  syncActivity_union_merge wAct actFile actRemoteEnv "tok" rfl rfl rfl (by decide)

@[simp] theorem findNotesFile_allOk (w : World) :
    findNotesFile allOk w =
      (slotFind w.drive.notesFiles, pushEv w (Ev.findReq notesFileName)) := rfl

@[simp] theorem readNotesFile_allOk (w : World) (fid : Nat) :
    readNotesFile allOk w fid =
      (slotReadAt w.drive.notesFiles fid, pushEv w (Ev.readReq notesFileName)) := rfl

theorem getDeviceId_clock_le (w : World) : w.clock ≤ (getDeviceId w).2.clock := by
  unfold getDeviceId
  split
  · simp
  · simp

/-- C6 amended: when the remote notes blob exists but its content is
malformed (the read yields null), syncNotes skips the conflict body: the
local payload and the remote Drive state are untouched, but the unit
reports success and still persists a fresh sync_notes_time (it does not
return a failure and does not leave the stored last-sync timestamp
untouched, contrary to the original claim). -/
theorem syncNotes_malformed_skips (w : World) (f : DFile (List Note)) (t : String)
    (htok : w.token = some t)
    (hfind : w.drive.notesFiles.head? = some f)
    (hmal : f.content = RContent.malformed) :
    (syncNotes allOk w).1 = true ∧
    (syncNotes allOk w).2.localNotes = w.localNotes ∧
    (syncNotes allOk w).2.drive = w.drive ∧
    ∃ t2, lookupSetting (syncNotes allOk w).2.settings "sync_notes_time" =
      some (SettingVal.natV t2) ∧ w.clock ≤ t2 := by
  have hev : ensureValidToken allOk w = (some t, pushEv w Ev.probeToken) :=
    ensureValidToken_ok allOk w t htok rfl
  have hr : slotReadAt w.drive.notesFiles f.id = none := by
    rcases hl : w.drive.notesFiles with _ | ⟨a, rest⟩
    · rw [hl] at hfind
      simp at hfind
    · rw [hl] at hfind
      simp only [List.head?_cons, Option.some.injEq] at hfind
      subst hfind
      unfold slotReadAt
      rw [List.find?_cons_of_pos _ (by simp)]
      simp only []
      rw [hmal]
  have hrun : syncNotes allOk w =
      finishUnit (pushEv (pushEv (getDeviceId (pushEv w Ev.probeToken)).2
        (Ev.findReq notesFileName)) (Ev.readReq notesFileName)) "sync_notes_time" := by
    unfold syncNotes
    rw [hev]
    simp only [allOk_loadFails, Bool.false_eq_true, if_false,
      getLocalDataWithMetadata_snd, getLocalDataWithMetadata_fst,
      findNotesFile_allOk, readNotesFile_allOk, getDeviceId_snd_drive,
      pushEv_drive, slotFind]
    rw [hfind]
    simp only []
    rw [hr]
  rw [hrun]
  refine ⟨finishUnit_fst _ _, by simp, by simp, ?_⟩
  refine ⟨(getDeviceId (pushEv w Ev.probeToken)).2.clock, ?_, ?_⟩
  · rw [finishUnit_snd_settings]
    rw [show (pushEv (pushEv (getDeviceId (pushEv w Ev.probeToken)).2
        (Ev.findReq notesFileName)) (Ev.readReq notesFileName)).settings
      = (getDeviceId (pushEv w Ev.probeToken)).2.settings from rfl]
    rw [show (pushEv (pushEv (getDeviceId (pushEv w Ev.probeToken)).2
        (Ev.findReq notesFileName)) (Ev.readReq notesFileName)).clock
      = (getDeviceId (pushEv w Ev.probeToken)).2.clock from rfl]
    exact lookup_setKV_same _ _ _
  · exact getDeviceId_clock_le (pushEv w Ev.probeToken)

/-- World with a malformed remote notes blob, a stored last-sync time of
5 and clock 10. -/
def wMal : World :=
  { clock := 10,
    settings := [("sync_notes_time", SettingVal.natV 5),
                 ("device_id", SettingVal.str "dev")],
    localNotes := [], localTasks := [], localFolders := [],
    drive := { nextId := 1, notesFiles := [⟨0, RContent.malformed⟩],
               tasksFiles := [], foldersFiles := [], sectionsFiles := [],
               settingsFiles := [], activityFiles := [], mediaFiles := [] },
    token := some "tok", syncInProgress := false, trace := [] }

/-- Counterexample to C6 as stated: on a malformed remote notes blob the
unit returns success, not failure, and moves the stored last-sync
timestamp from 5 to the fresh clock reading 10; only the local payload is
indeed left untouched. -/
theorem syncNotes_malformed_cex :
    getSettingNat wMal "sync_notes_time" 0 = 5 ∧
    (syncNotes allOk wMal).1 = true ∧
    lookupSetting (syncNotes allOk wMal).2.settings "sync_notes_time" =
      some (SettingVal.natV 10) ∧
    (syncNotes allOk wMal).2.localNotes = wMal.localNotes := by decide

/-- Witness for the amended C6 at the concrete world wMal. -/
theorem syncNotes_malformed_skips_witness :
    (syncNotes allOk wMal).1 = true ∧
    (syncNotes allOk wMal).2.localNotes = wMal.localNotes ∧
    (syncNotes allOk wMal).2.drive = wMal.drive ∧
    ∃ t2, lookupSetting (syncNotes allOk wMal).2.settings "sync_notes_time" =
      some (SettingVal.natV t2) ∧ wMal.clock ≤ t2 :=
  syncNotes_malformed_skips wMal ⟨0, RContent.malformed⟩ "tok" rfl rfl rfl

theorem writeNotesFile_allOk_none (w : World) (c : SyncableData (List Note)) :
    writeNotesFile allOk w c none =
      { (pushEv w (Ev.writeReq notesFileName true)) with drive :=
        { w.drive with
          notesFiles := w.drive.notesFiles ++ [⟨w.drive.nextId, RContent.good c⟩],
          nextId := w.drive.nextId + 1 } } := rfl

theorem writeNotesFile_allOk_some (w : World) (c : SyncableData (List Note)) (fid : Nat) :
    writeNotesFile allOk w c (some fid) =
      { (pushEv w (Ev.writeReq notesFileName false)) with drive :=
        { w.drive with notesFiles := slotUpdate w.drive.notesFiles fid c } } := rfl

/-- Reduction of syncNotes on a first sync: no remote notes blob exists,
the device id is provisioned and the credential valid, so the unit
creates the blob from the local payload with a fresh envelope. -/
theorem syncNotes_run_create (w : World) (t : String)
    (htok : w.token = some t)
    (hdev : storedDeviceId w ≠ "")
    (hempty : w.drive.notesFiles = []) :
    syncNotes allOk w =
      finishUnit (writeNotesFile allOk
        (tick (pushEv (pushEv w Ev.probeToken) (Ev.findReq notesFileName))).2
        ⟨w.localNotes, ⟨w.clock, storedDeviceId w, 1⟩⟩ none) "sync_notes_time" := by
  have hev : ensureValidToken allOk w = (some t, pushEv w Ev.probeToken) :=
    ensureValidToken_ok allOk w t htok rfl
  have hgd1 : getDeviceId (pushEv w Ev.probeToken) =
      (storedDeviceId w, pushEv w Ev.probeToken) :=
    getDeviceId_of_stored _ hdev
  have hgd2 : getDeviceId (tick (pushEv (pushEv w Ev.probeToken)
      (Ev.findReq notesFileName))).2 =
      (storedDeviceId w,
        (tick (pushEv (pushEv w Ev.probeToken) (Ev.findReq notesFileName))).2) :=
    getDeviceId_of_stored _ hdev
  unfold syncNotes
  rw [hev]
  simp only [allOk_loadFails, Bool.false_eq_true, if_false,
    getLocalDataWithMetadata_snd, getLocalDataWithMetadata_fst,
    findNotesFile_allOk, readNotesFile_allOk, hgd1, pushEv_drive, slotFind]
  rw [hempty]
  simp only [List.head?_nil, hgd2, tick_fst, pushEv_clock, pushEv_localNotes]

/-- Reduction of syncNotes when one remote notes blob exists, is well
formed and is strictly older than the stored local sync time: the unit
wins locally and patches the blob in place with the local payload. -/
theorem syncNotes_run_update (w : World) (t : String) (fid : Nat)
    (renv : SyncableData (List Note))
    (htok : w.token = some t)
    (hdev : storedDeviceId w ≠ "")
    (hfiles : w.drive.notesFiles = [⟨fid, RContent.good renv⟩])
    (htime : getSettingNat w "sync_notes_time" 0 > renv.metadata.lastSyncTime) :
    syncNotes allOk w =
      finishUnit (writeNotesFile allOk
        (tick (pushEv (pushEv (pushEv w Ev.probeToken) (Ev.findReq notesFileName))
          (Ev.readReq notesFileName))).2
        ⟨w.localNotes, ⟨w.clock, storedDeviceId w, 1⟩⟩ (some fid)) "sync_notes_time" := by
  have hev : ensureValidToken allOk w = (some t, pushEv w Ev.probeToken) :=
    ensureValidToken_ok allOk w t htok rfl
  have hgd1 : getDeviceId (pushEv w Ev.probeToken) =
      (storedDeviceId w, pushEv w Ev.probeToken) :=
    getDeviceId_of_stored _ hdev
  have hgd2 : getDeviceId (tick (pushEv (pushEv (pushEv w Ev.probeToken)
      (Ev.findReq notesFileName)) (Ev.readReq notesFileName))).2 =
      (storedDeviceId w,
        (tick (pushEv (pushEv (pushEv w Ev.probeToken) (Ev.findReq notesFileName))
          (Ev.readReq notesFileName))).2) :=
    getDeviceId_of_stored _ hdev
  have hkey : ("sync_" ++ "notes" ++ "_time" : String) = "sync_notes_time" := rfl
  have hread : slotReadAt w.drive.notesFiles fid = some renv := by
    rw [hfiles]
    unfold slotReadAt
    rw [List.find?_cons_of_pos _ (by simp)]
  unfold syncNotes
  rw [hev]
  simp only [allOk_loadFails, Bool.false_eq_true, if_false,
    getLocalDataWithMetadata_snd, getLocalDataWithMetadata_fst,
    findNotesFile_allOk, readNotesFile_allOk, hgd1, pushEv_drive, slotFind, hkey,
    getSettingNat_pushEv, pushEv_localNotes]
  rw [hfiles]
  simp only [List.head?_cons]
  rw [show slotReadAt [(⟨fid, RContent.good renv⟩ : DFile (List Note))]
      (⟨fid, RContent.good renv⟩ : DFile (List Note)).id = some renv from
    hfiles ▸ hread]
  simp only []
  have hres : resolveConflict
      { data := w.localNotes,
        metadata :=
          { lastSyncTime := getSettingNat w "sync_notes_time" 0,
            deviceId := storedDeviceId w, version := 1 } } renv =
      { winner := "local", data := w.localNotes } := by
    unfold resolveConflict
    rw [if_pos htime]
  rw [hres]
  simp only [hgd2, tick_fst, pushEv_clock, pushEv_localNotes]
  rw [if_neg (by decide : ¬ ("local" : String) = "remote")]

/-- C7: syncing the notes domain with no pre-existing remote blob creates
exactly one blob holding the local payload in a fresh envelope (timestamp
now, device id of this device, version 1) and succeeds; running the same
sync again immediately, with no local changes, succeeds, creates no
second blob (the one blob keeps its Drive file id and is patched in
place) and leaves the remote payload unchanged except for the envelope's
lastSyncTime. -/
theorem syncNotes_first_sync_idempotent (w : World) (t : String)
    (htok : w.token = some t)
    (hdev : storedDeviceId w ≠ "")
    (hempty : w.drive.notesFiles = []) :
    (syncNotes allOk w).1 = true ∧
    (syncNotes allOk w).2.drive.notesFiles =
      [⟨w.drive.nextId, RContent.good ⟨w.localNotes, ⟨w.clock, storedDeviceId w, 1⟩⟩⟩] ∧
    (syncNotes allOk w).2.localNotes = w.localNotes ∧
    (syncNotes allOk (syncNotes allOk w).2).1 = true ∧
    (syncNotes allOk (syncNotes allOk w).2).2.drive.notesFiles =
      [⟨w.drive.nextId, RContent.good ⟨w.localNotes,
        ⟨(syncNotes allOk w).2.clock, storedDeviceId w, 1⟩⟩⟩] ∧
    (syncNotes allOk (syncNotes allOk w).2).2.localNotes = w.localNotes := by
  have hrun1 := syncNotes_run_create w t htok hdev hempty
  have files1 : (syncNotes allOk w).2.drive.notesFiles =
      [⟨w.drive.nextId, RContent.good ⟨w.localNotes, ⟨w.clock, storedDeviceId w, 1⟩⟩⟩] := by
    rw [hrun1, finishUnit_snd_drive, writeNotesFile_allOk_none]
    simp [hempty]
  have ln1 : (syncNotes allOk w).2.localNotes = w.localNotes := by
    rw [hrun1]
    simp
  have tok1 : (syncNotes allOk w).2.token = some t := by
    rw [hrun1]
    simp [htok]
  have set1 : (syncNotes allOk w).2.settings =
      setSettingKV w.settings "sync_notes_time" (SettingVal.natV (w.clock + 1)) := by
    rw [hrun1, finishUnit_snd_settings]
    simp
  have stored1 : storedDeviceId (syncNotes allOk w).2 = storedDeviceId w := by
    unfold storedDeviceId
    rw [set1, lookup_setKV_ne _ _ _ _ (by decide)]
  have time1 : getSettingNat (syncNotes allOk w).2 "sync_notes_time" 0 = w.clock + 1 := by
    unfold getSettingNat
    rw [set1, lookup_setKV_same]
  have hdev1 : storedDeviceId (syncNotes allOk w).2 ≠ "" := by
    rw [stored1]
    exact hdev
  have htime1 : getSettingNat (syncNotes allOk w).2 "sync_notes_time" 0 >
      (⟨w.localNotes, ⟨w.clock, storedDeviceId w, 1⟩⟩ :
        SyncableData (List Note)).metadata.lastSyncTime := by
    rw [time1]
    exact Nat.lt_succ_self _
  have hrun2 := syncNotes_run_update (syncNotes allOk w).2 t w.drive.nextId
    ⟨w.localNotes, ⟨w.clock, storedDeviceId w, 1⟩⟩ tok1 hdev1 files1 htime1
  refine ⟨?_, files1, ln1, ?_, ?_, ?_⟩
  · rw [hrun1]
    exact finishUnit_fst _ _
  · rw [hrun2]
    exact finishUnit_fst _ _
  · rw [hrun2, finishUnit_snd_drive, writeNotesFile_allOk_some]
    simp [files1, slotUpdate, ln1, stored1]
  · rw [hrun2]
    simp [ln1]

/-- World for the C7 witness: provisioned device id, one local note, no
remote notes blob. -/
def noteA : Note :=
  { id := "n1", type := NoteType.regular, title := "a", content := "hello",
    color := none, folderId := none, isPinned := none, isFavorite := none,
    pinnedOrder := none, isArchived := none, archivedAt := none,
    isDeleted := none, deletedAt := none, isHidden := none,
    isProtected := none, metaDescription := none, reminderEnabled := none,
    reminderTime := none, createdAt := 1, updatedAt := 2,
    voiceRecordings := [] }

def wFirst : World :=
  { clock := 10,
    settings := [("device_id", SettingVal.str "dev")],
    localNotes := [noteA], localTasks := [], localFolders := [],
    drive := { nextId := 5, notesFiles := [], tasksFiles := [],
               foldersFiles := [], sectionsFiles := [], settingsFiles := [],
               activityFiles := [], mediaFiles := [] },
    token := some "tok", syncInProgress := false, trace := [] }

/-- Witness for C7 at the concrete world wFirst. -/
theorem syncNotes_first_sync_idempotent_witness :
    (syncNotes allOk wFirst).1 = true ∧
    (syncNotes allOk wFirst).2.drive.notesFiles =
      [⟨wFirst.drive.nextId, RContent.good ⟨wFirst.localNotes,
        ⟨wFirst.clock, storedDeviceId wFirst, 1⟩⟩⟩] ∧
    (syncNotes allOk wFirst).2.localNotes = wFirst.localNotes ∧
    (syncNotes allOk (syncNotes allOk wFirst).2).1 = true ∧
    (syncNotes allOk (syncNotes allOk wFirst).2).2.drive.notesFiles =
      [⟨wFirst.drive.nextId, RContent.good ⟨wFirst.localNotes,
        ⟨(syncNotes allOk wFirst).2.clock, storedDeviceId wFirst, 1⟩⟩⟩] ∧
    (syncNotes allOk (syncNotes allOk wFirst).2).2.localNotes = wFirst.localNotes :=
  syncNotes_first_sync_idempotent wFirst "tok" rfl (by decide) rfl

/-- Bounded text preview of a note's HTML content.  Modelled from the
spec: the extractor of utils/contentPreview is not in the sources; the
specification fixes only that it returns at most maxLength characters of
the content (an early-exit text extraction; the HTML stripping itself is
modelled as the identity on the character sequence). -/
def getTextPreviewFromHtml (html : String) (maxLength : Nat) : String :=
  String.mk (html.data.take maxLength)

/-- Lightweight note metadata, interface NoteMeta of NotesContext.tsx. -/
structure NoteMeta where
  id : String
  type : NoteType
  title : String
  color : Option String
  folderId : Option String
  isPinned : Option Bool
  isFavorite : Option Bool
  pinnedOrder : Option Nat
  isArchived : Option Bool
  archivedAt : Option Nat
  isDeleted : Option Bool
  deletedAt : Option Nat
  isHidden : Option Bool
  isProtected : Option Bool
  metaDescription : Option String
  reminderEnabled : Option Bool
  reminderTime : Option Nat
  createdAt : Nat
  updatedAt : Nat
  contentPreview : String
  hasFullContent : Bool
deriving DecidableEq, Repr

/-- extractNoteMeta of NotesContext.tsx: copy every scalar and flag field
of the note and derive a 200-character content preview. -/
def extractNoteMeta (note : Note) : NoteMeta :=
  { id := note.id, type := note.type, title := note.title,
    color := note.color, folderId := note.folderId,
    isPinned := note.isPinned, isFavorite := note.isFavorite,
    pinnedOrder := note.pinnedOrder, isArchived := note.isArchived,
    archivedAt := note.archivedAt, isDeleted := note.isDeleted,
    deletedAt := note.deletedAt, isHidden := note.isHidden,
    isProtected := note.isProtected, metaDescription := note.metaDescription,
    reminderEnabled := note.reminderEnabled, reminderTime := note.reminderTime,
    createdAt := note.createdAt, updatedAt := note.updatedAt,
    contentPreview := getTextPreviewFromHtml note.content 200,
    hasFullContent := true }

/-- notesMeta of NotesContext.tsx: the memoized projection is the map of
extractNoteMeta over the note collection. -/
def notesMeta (notes : List Note) : List NoteMeta :=
  notes.map extractNoteMeta

/-- C8: the metadata projection has exactly the ids of the entity
collection (as equal id lists, hence equal id sets), each projected
element reproduces the entity's scalar and flag fields unchanged, and the
content preview is the bounded 200-character derivation of the entity's
content. -/
theorem notesMeta_projection (ns : List Note) (n : Note) (hn : n ∈ ns) :
    (notesMeta ns).map NoteMeta.id = ns.map Note.id ∧
    extractNoteMeta n ∈ notesMeta ns ∧
    (extractNoteMeta n).id = n.id ∧
    (extractNoteMeta n).type = n.type ∧
    (extractNoteMeta n).title = n.title ∧
    (extractNoteMeta n).color = n.color ∧
    (extractNoteMeta n).folderId = n.folderId ∧
    (extractNoteMeta n).isPinned = n.isPinned ∧
    (extractNoteMeta n).isFavorite = n.isFavorite ∧
    (extractNoteMeta n).pinnedOrder = n.pinnedOrder ∧
    (extractNoteMeta n).isArchived = n.isArchived ∧
    (extractNoteMeta n).archivedAt = n.archivedAt ∧
    (extractNoteMeta n).isDeleted = n.isDeleted ∧
    (extractNoteMeta n).deletedAt = n.deletedAt ∧
    (extractNoteMeta n).isHidden = n.isHidden ∧
    (extractNoteMeta n).isProtected = n.isProtected ∧
    (extractNoteMeta n).metaDescription = n.metaDescription ∧
    (extractNoteMeta n).reminderEnabled = n.reminderEnabled ∧
    (extractNoteMeta n).reminderTime = n.reminderTime ∧
    (extractNoteMeta n).createdAt = n.createdAt ∧
    (extractNoteMeta n).updatedAt = n.updatedAt ∧
    (extractNoteMeta n).contentPreview = getTextPreviewFromHtml n.content 200 ∧
    (extractNoteMeta n).contentPreview.length ≤ 200 := by
  have hlen : (extractNoteMeta n).contentPreview.length ≤ 200 := by
    have hmin : (extractNoteMeta n).contentPreview.length =
        min 200 n.content.data.length := by
      show (n.content.data.take 200).length = min 200 n.content.data.length
      exact List.length_take _ _
    rw [hmin]
    exact Nat.min_le_left _ _
  refine ⟨?_, List.mem_map_of_mem extractNoteMeta hn, rfl, rfl, rfl, rfl, rfl,
    rfl, rfl, rfl, rfl, rfl, rfl, rfl, rfl, rfl, rfl, rfl, rfl, rfl, rfl, rfl,
    hlen⟩
  rw [notesMeta, List.map_map]
  rfl

/-- Witness for C8 at the singleton collection holding noteA. -/
theorem notesMeta_projection_witness :
    (notesMeta [noteA]).map NoteMeta.id = [noteA].map Note.id ∧
    extractNoteMeta noteA ∈ notesMeta [noteA] ∧
    (extractNoteMeta noteA).title = noteA.title ∧
    (extractNoteMeta noteA).contentPreview.length ≤ 200 := by
  have h := notesMeta_projection [noteA] noteA (by simp)
  exact ⟨h.1, h.2.1, h.2.2.2.2.1, h.2.2.2.2.2.2.2.2.2.2.2.2.2.2.2.2.2.2.2.2.2.2⟩

/-- Membership in a settings blob write: a file of the settings slot after
a writeSettingsFile call either was already there or carries the written
envelope. -/
theorem writeSettingsFile_mem (env : FaultEnv) (w : World)
    (c : SyncableData (List (String × SettingVal))) (ex : Option Nat)
    (f : DFile (List (String × SettingVal)))
    (hf : f ∈ (writeSettingsFile env w c ex).drive.settingsFiles) :
    f ∈ w.drive.settingsFiles ∨ f.content = RContent.good c := by
  unfold writeSettingsFile at hf
  split at hf
  · exact Or.inl (by simpa using hf)
  · split at hf
    next fid =>
      simp only [] at hf
      unfold slotUpdate at hf
      simp only [pushEv_drive] at hf
      rcases List.mem_map.mp hf with ⟨g, hg, heq⟩
      by_cases hid : g.id = fid
      · rw [if_pos hid] at heq
        right
        rw [← heq]
      · rw [if_neg hid] at heq
        subst heq
        exact Or.inl hg
    next =>
      simp only [pushEv_drive] at hf
      rcases List.mem_append.mp hf with hl | hr
      · exact Or.inl hl
      · right
        simp only [List.mem_singleton] at hr
        subst hr
        rfl

/-- C9: the settings unit never uploads sync-internal or credential
state: every key of the filtered payload lacks the sync_, device_ and
google_ prefixes, and any settings blob file changed or created by a run
of syncSettings carries exactly that filtered payload. -/
theorem syncSettings_no_private_keys (env : FaultEnv) (w : World) :
    (∀ kv ∈ syncableSettingsOf w.settings,
      strStartsWith kv.1 "sync_" = false ∧
      strStartsWith kv.1 "device_" = false ∧
      strStartsWith kv.1 "google_" = false) ∧
    (∀ f ∈ (syncSettings env w).2.drive.settingsFiles,
      f ∈ w.drive.settingsFiles ∨
      ∃ meta, f.content = RContent.good ⟨syncableSettingsOf w.settings, meta⟩) := by
  constructor
  · intro kv hkv
    unfold syncableSettingsOf at hkv
    have hp := List.of_mem_filter hkv
    simp only [Bool.not_eq_true', Bool.or_eq_false_iff] at hp
    exact ⟨hp.1.1, hp.1.2, hp.2⟩
  · intro f hf
    unfold syncSettings at hf
    simp only [ensureValidToken_snd_settings] at hf
    repeat' split at hf
    all_goals
      first
      | exact Or.inl (by
          simpa [foldl_setSetting_drive, getLocalDataWithMetadata_snd] using hf)
      | (rcases writeSettingsFile_mem _ _ _ _ f
            (by simpa [getLocalDataWithMetadata_snd] using hf) with h | h
         · exact Or.inl (by simpa [getLocalDataWithMetadata_snd] using h)
         · exact Or.inr ⟨_, h⟩)

/-- World for the C9 witness: a public setting next to sync-internal,
device and Google credential settings, no remote settings blob. -/
def w9 : World :=
  { clock := 0,
    settings := [("theme", SettingVal.str "dark"),
                 ("sync_notes_time", SettingVal.natV 3),
                 ("device_id", SettingVal.str "dev"),
                 ("google_api", SettingVal.str "g")],
    localNotes := [], localTasks := [], localFolders := [],
    drive := { nextId := 0, notesFiles := [], tasksFiles := [],
               foldersFiles := [], sectionsFiles := [], settingsFiles := [],
               activityFiles := [], mediaFiles := [] },
    token := some "tok", syncInProgress := false, trace := [] }

/-- Settings blob file created by syncSettings on w9: only the public
setting is uploaded. -/
def f9 : DFile (List (String × SettingVal)) :=
  ⟨0, RContent.good ⟨[("theme", SettingVal.str "dark")], ⟨0, "dev", 1⟩⟩⟩

/-- Witness for C9 at the concrete world w9. -/
theorem syncSettings_no_private_keys_witness :
    (("theme", SettingVal.str "dark") ∈ syncableSettingsOf w9.settings ∧
      strStartsWith ("theme", SettingVal.str "dark").1 "sync_" = false ∧
      strStartsWith ("theme", SettingVal.str "dark").1 "device_" = false ∧
      strStartsWith ("theme", SettingVal.str "dark").1 "google_" = false) ∧
    (f9 ∈ (syncSettings allOk w9).2.drive.settingsFiles ∧
      (f9 ∈ w9.drive.settingsFiles ∨
        ∃ meta, f9.content = RContent.good ⟨syncableSettingsOf w9.settings, meta⟩)) := by
  have h := syncSettings_no_private_keys allOk w9
  have hmem : f9 ∈ (syncSettings allOk w9).2.drive.settingsFiles := by decide
  exact ⟨⟨by decide, h.1 _ (by decide)⟩, hmem, h.2 f9 hmem⟩

end NpdSync
